import Mathlib

/-!
# Verification of the background legal-agent control loop

A shallow embedding, in Lean 4, of the agent code in `backend/agent/`
(`lawyer_brain.py`, `learning.py`, `advanced_tools.py`, `legal_workflow.py`,
`bridge_tools.py`, `worker.py`).  Python dictionaries and JSON values are
modelled by the inductive type `JValue`; Python exceptions by `Except PyExc`;
mutable object state by explicit state passing.  Machine floats appear only as
the preference-confidence score and time averages, whose uses here
(increment, clamp, average) are modelled with rationals.  Wall-clock time,
logging, real file I/O, the network, and thread scheduling are not modelled;
where a definition depends on an out-of-scope module (the remote platform
bridge, the retrieval subsystem, the static legal-knowledge tables, PDF/DOCX
text extraction, JSON text parsing) that dependency is a parameter of the
model, with a comment citing the source location.
-/

namespace AgentModel

/-! ## JSON values and Python-level primitives -/

/-- A JSON value, as produced by `json.loads`.  Numbers are modelled as
rationals (JSON numbers may carry decimals; the agent only ever compares,
adds and averages them). -/
inductive JValue where
  | null : JValue
  | bool : Bool → JValue
  | num : ℚ → JValue
  | str : String → JValue
  | arr : List JValue → JValue
  | obj : List (String × JValue) → JValue
  deriving Repr

mutual

/-- Structural equality test for `JValue` (Python `==` on parsed JSON). -/
def JValue.beq : JValue → JValue → Bool
  | .null, .null => true
  | .bool a, .bool b => a == b
  | .num a, .num b => a == b
  | .str a, .str b => a == b
  | .arr a, .arr b => JValue.beqList a b
  | .obj a, .obj b => JValue.beqObj a b
  | _, _ => false

def JValue.beqList : List JValue → List JValue → Bool
  | [], [] => true
  | a :: as, b :: bs => JValue.beq a b && JValue.beqList as bs
  | _, _ => false

def JValue.beqObj : List (String × JValue) → List (String × JValue) → Bool
  | [], [] => true
  | (ka, va) :: as, (kb, vb) :: bs => ka == kb && JValue.beq va vb && JValue.beqObj as bs
  | _, _ => false

end

instance : BEq JValue := ⟨JValue.beq⟩

mutual

theorem JValue.beq_refl : (a : JValue) → JValue.beq a a = true
  | .null => rfl
  | .bool b => by simp [JValue.beq]
  | .num q => by simp [JValue.beq]
  | .str s => by simp [JValue.beq]
  | .arr xs => by simp [JValue.beq]; exact JValue.beqList_refl xs
  | .obj kvs => by simp [JValue.beq]; exact JValue.beqObj_refl kvs

theorem JValue.beqList_refl : (xs : List JValue) → JValue.beqList xs xs = true
  | [] => rfl
  | x :: xs => by
      simp [JValue.beqList]
      exact ⟨JValue.beq_refl x, JValue.beqList_refl xs⟩

theorem JValue.beqObj_refl : (kvs : List (String × JValue)) → JValue.beqObj kvs kvs = true
  | [] => rfl
  | (k, v) :: kvs => by
      simp [JValue.beqObj]
      exact ⟨JValue.beq_refl v, JValue.beqObj_refl kvs⟩

end

mutual

theorem JValue.eq_of_beq : {a b : JValue} → JValue.beq a b = true → a = b
  | .null, .null, _ => rfl
  | .bool _, .bool _, h => by simp [JValue.beq] at h; simp [h]
  | .num _, .num _, h => by simp [JValue.beq] at h; simp [h]
  | .str _, .str _, h => by simp [JValue.beq] at h; simp [h]
  | .arr _, .arr _, h => by
      simp [JValue.beq] at h
      have := JValue.eqList_of_beq h
      simp [this]
  | .obj _, .obj _, h => by
      simp [JValue.beq] at h
      have := JValue.eqObj_of_beq h
      simp [this]

theorem JValue.eqList_of_beq : {xs ys : List JValue} → JValue.beqList xs ys = true → xs = ys
  | [], [], _ => rfl
  | x :: xs, y :: ys, h => by
      simp [JValue.beqList] at h
      have h1 := JValue.eq_of_beq h.1
      have h2 := JValue.eqList_of_beq h.2
      simp [h1, h2]

theorem JValue.eqObj_of_beq :
    {xs ys : List (String × JValue)} → JValue.beqObj xs ys = true → xs = ys
  | [], [], _ => rfl
  | (kx, vx) :: xs, (ky, vy) :: ys, h => by
      simp [JValue.beqObj] at h
      obtain ⟨⟨hk, hv⟩, hrest⟩ := h
      have h1 := JValue.eq_of_beq hv
      have h2 := JValue.eqObj_of_beq hrest
      simp [hk, h1, h2]

end

instance : DecidableEq JValue := fun a b =>
  if h : JValue.beq a b = true then
    .isTrue (JValue.eq_of_beq h)
  else
    .isFalse (fun hab => h (hab ▸ JValue.beq_refl a))

instance : LawfulBEq JValue where
  eq_of_beq := JValue.eq_of_beq
  rfl := JValue.beq_refl _

/-- Python exceptions that the embedded code can raise. -/
inductive PyExc where
  | typeError (msg : String)
  | attributeError (msg : String)
  | indexError (msg : String)
  | runtimeError (msg : String)
  | valueError (msg : String)
  deriving Repr, DecidableEq

/-- `str(e)` for an exception: the message. -/
def PyExc.message : PyExc → String
  | .typeError m => m
  | .attributeError m => m
  | .indexError m => m
  | .runtimeError m => m
  | .valueError m => m

/-- Structural splitting of a string at a separator character (Python
`str.split(sep)`); written out so that the kernel can evaluate it. -/
def splitCharAux (c : Char) : List Char → List Char → List String
  | [], cur => [String.mk cur.reverse]
  | x :: xs, cur =>
      if x = c then String.mk cur.reverse :: splitCharAux c xs []
      else splitCharAux c xs (x :: cur)

/-- Python `s.split(c)` for a one-character separator. -/
def splitChar (c : Char) (s : String) : List String :=
  splitCharAux c s.data []

/-- Python `s.startswith(pre)`. -/
def strStartsWith (s pre : String) : Bool :=
  pre.data.isPrefixOf s.data

/-- Python `s[:n]`. -/
def strTake (n : Nat) (s : String) : String :=
  String.mk (s.data.take n)

/-- Python `needle in hay` on strings (substring containment). -/
def containsSub (hay needle : String) : Bool :=
  (List.range (hay.data.length + 1)).any
    (fun i => needle.data.isPrefixOf (hay.data.drop i))

/-- Python `s.lower()`. -/
def strLower (s : String) : String :=
  String.mk (s.data.map Char.toLower)

/-- Python `min(a, b)` on two numbers (the first argument when equal). -/
def pyMin (a b : ℚ) : ℚ := if a ≤ b then a else b

/-- Python `dict.get(key, default)` on a parsed-JSON object body
(first binding wins; parsed JSON objects have unique keys). -/
def jget (kvs : List (String × JValue)) (k : String) (d : JValue) : JValue :=
  match kvs.find? (fun p => p.1 = k) with
  | some p => p.2
  | none => d

/-- Python `value.get(key, default)`: raises `AttributeError` unless the
value is a dict. -/
def pyDictGetD (v : JValue) (k : String) (d : JValue) : Except PyExc JValue :=
  match v with
  | .obj kvs => .ok (jget kvs k d)
  | _ => .error (.attributeError "object has no attribute get")

/-- Python `value.get(key)` with no default (`None` when the key is absent). -/
def pyDictGet (v : JValue) (k : String) : Except PyExc JValue :=
  pyDictGetD v k .null

/-- Python `len(value)`: defined for strings, lists and dicts, `TypeError`
otherwise. -/
def pyLen : JValue → Except PyExc Nat
  | .str s => .ok s.length
  | .arr xs => .ok xs.length
  | .obj kvs => .ok kvs.length
  | _ => .error (.typeError "object has no len")

/-- Python truthiness of a parsed-JSON value. -/
def pyTruthy : JValue → Bool
  | .null => false
  | .bool b => b
  | .num q => q ≠ 0
  | .str s => s ≠ ""
  | .arr xs => xs ≠ []
  | .obj kvs => kvs ≠ []

/-- Python slicing `value[:n]` as it appears in the agent's log lines and
digests: works on strings and lists, raises `TypeError` otherwise. -/
def pySliceTo (n : Nat) : JValue → Except PyExc JValue
  | .str s => .ok (.str (strTake n s))
  | .arr xs => .ok (.arr (xs.take n))
  | _ => .error (.typeError "object is not subscriptable")

/-- Python `value[0]` on a parsed-JSON value (used on `response["choices"]`).
Lists index normally; a string yields its first character; anything else
raises. -/
def pySubscriptZero : JValue → Except PyExc JValue
  | .arr [] => .error (.indexError "list index out of range")
  | .arr (x :: _) => .ok x
  | .str s =>
      match s.data with
      | [] => .error (.indexError "string index out of range")
      | c :: _ => .ok (.str (String.mk [c]))
  | _ => .error (.typeError "object is not subscriptable")

mutual

/-- Python `repr` of a parsed-JSON value, used when a non-string value is
interpolated inside a list/dict rendering.  The exact punctuation of the
rendering is irrelevant to every claim; only that it is a function of the
value matters. -/
def pyRepr : JValue → String
  | .null => "None"
  | .bool true => "True"
  | .bool false => "False"
  | .num q => toString q
  | .str s => "\x27" ++ s ++ "\x27"
  | .arr xs => "[" ++ String.intercalate ", " (pyReprList xs) ++ "]"
  | .obj kvs => "\x7b" ++ String.intercalate ", " (pyReprObj kvs) ++ "\x7d"

def pyReprList : List JValue → List String
  | [] => []
  | x :: xs => pyRepr x :: pyReprList xs

def pyReprObj : List (String × JValue) → List String
  | [] => []
  | (k, v) :: kvs => ("\x27" ++ k ++ "\x27: " ++ pyRepr v) :: pyReprObj kvs

end

/-- Python `str()` of a parsed-JSON value (f-string interpolation). -/
def pyStr : JValue → String
  | .str s => s
  | v => pyRepr v

/-- Python `"sep".join(x)`: joins a list of strings; joining a string joins
its characters; elements that are not strings raise `TypeError`. -/
def pyJoin (sep : String) : JValue → Except PyExc String
  | .arr xs =>
      match xs.mapM (fun v => match v with
        | .str s => Except.ok s
        | _ => Except.error (PyExc.typeError "sequence item: expected str instance")) with
      | .ok ss => .ok (String.intercalate sep ss)
      | .error e => .error e
  | .str s => .ok (String.intercalate sep (s.data.map (fun c => String.mk [c])))
  | _ => .error (.typeError "can only join an iterable")

/-- `", ".join` over a Lean-level list of values each of which must be a
Python string (used on the actions ledger, whose entries are the tool names
taken from the model's messages). -/
def pyJoinStrs (sep : String) (xs : List JValue) : Except PyExc String :=
  match xs.mapM (fun v => match v with
    | JValue.str s => Except.ok s
    | _ => Except.error (PyExc.typeError "sequence item: expected str instance")) with
  | .ok ss => .ok (String.intercalate sep ss)
  | .error e => .error e

/-- Python `xs[-n:]`: the `n` most recent elements. -/
def lastN (n : Nat) (xs : List α) : List α :=
  xs.drop (xs.length - n)

theorem lastN_length (n : Nat) (xs : List α) : (lastN n xs).length = min n xs.length := by
  simp [lastN]
  omega

theorem lastN_suffix (n : Nat) (xs : List α) : ∃ pre, pre ++ lastN n xs = xs := by
  exact ⟨xs.take (xs.length - n), List.take_append_drop _ xs⟩

theorem lastN_append_of_le (n : Nat) (xs ys : List α) (h : ys.length ≤ n) :
    ∃ pre, pre ++ ys = lastN n (xs ++ ys) := by
  refine ⟨xs.drop ((xs ++ ys).length - n), ?_⟩
  rw [lastN, List.drop_append_of_le_length]
  simp
  omega

/-- Python dict assignment `d[k] = v`: updates the binding in place if the
key exists, otherwise appends it (insertion order is preserved). -/
def dictSet (m : List (String × α)) (k : String) (v : α) : List (String × α) :=
  if m.any (fun p => p.1 = k) then
    m.map (fun p => if p.1 = k then (k, v) else p)
  else
    m ++ [(k, v)]

/-- Lookup in an insertion-ordered dict. -/
def dictGet? (m : List (String × α)) (k : String) : Option α :=
  (m.find? (fun p => p.1 = k)).map (·.2)

/-! ## The model-call retry loop

`SuperLawyerAgent._call_azure_openai` (`lawyer_brain.py` lines 196-222) and
`AzureOpenAIClient.chat_completion` (`legal_workflow.py` lines 153-183)
share the same retry structure; this is its embedding.  The network is an
oracle giving the outcome of each attempt.  `Retry-After` is modelled as the
already-parsed integer hint (the code does
`int(e.headers.get("Retry-After", 30))`). -/

/-- Outcome of one `urllib.request.urlopen` attempt. -/
inductive AttemptOutcome where
  | success (resp : JValue)
  | httpError (code : Int) (retryAfter : Option Int)
  | exc (msg : String)
  deriving Repr, DecidableEq

/-- The retryable server-error codes recognised by the `elif` branch. -/
def serverErrorCodes : List Int := [500, 502, 503, 504]

instance [DecidableEq ε] [DecidableEq α] : DecidableEq (Except ε α) := fun a b =>
  match a, b with
  | .ok x, .ok y =>
      if h : x = y then .isTrue (by rw [h]) else .isFalse (by simp [h])
  | .error x, .error y =>
      if h : x = y then .isTrue (by rw [h]) else .isFalse (by simp [h])
  | .ok _, .error _ => .isFalse (by simp)
  | .error _, .ok _ => .isFalse (by simp)

/-- Result of the whole call: the returned response or the raised error,
the sleeps performed (seconds), and how many attempts were consumed. -/
structure CallResult where
  outcome : Except String JValue
  sleeps : List Int
  attemptsUsed : Nat
  deriving Repr, DecidableEq

/-- `max_retries = 6  # Up from 3: push through transient failures` -/
def azureMaxRetries : Nat := 6

/-- The `for attempt in range(max_retries)` body.  `remaining` is the number
of loop passes left (`max_retries - attempt`). -/
def callAzureGo (o : Nat → AttemptOutcome) : (remaining attempt : Nat) → List Int → CallResult
  | 0, attempt, sleeps =>
      -- loop exhausted: raise RuntimeError("Max retries exceeded ...")
      ⟨.error "Max retries exceeded for Azure OpenAI API", sleeps, attempt⟩
  | remaining + 1, attempt, sleeps =>
      match o attempt with
      | .success resp => ⟨.ok resp, sleeps, attempt + 1⟩
      | .httpError code retryAfter =>
          if code = 429 then
            -- retry_after = int(e.headers.get("Retry-After", 30)); sleep; continue
            callAzureGo o remaining (attempt + 1) (sleeps ++ [retryAfter.getD 30])
          else if code ∈ serverErrorCodes then
            -- time.sleep(2 ** attempt); continue
            callAzureGo o remaining (attempt + 1) (sleeps ++ [2 ^ attempt])
          else
            -- raise RuntimeError(f"Azure OpenAI API error ...")  (no retry)
            ⟨.error ("Azure OpenAI API error " ++ toString code), sleeps, attempt + 1⟩
      | .exc msg =>
          if attempt < azureMaxRetries - 1 then
            callAzureGo o remaining (attempt + 1) (sleeps ++ [2 ^ attempt])
          else
            ⟨.error msg, sleeps, attempt + 1⟩

/-- `SuperLawyerAgent._call_azure_openai`, as a function of the attempt
oracle (request construction does not influence the control flow). -/
def callAzureOpenAI (o : Nat → AttemptOutcome) : CallResult :=
  callAzureGo o azureMaxRetries 0 []

/-- An attempt outcome the loop retries: a 429 or a 500/502/503/504. -/
def retryableHttp : AttemptOutcome → Prop
  | .httpError code _ => code = 429 ∨ code ∈ serverErrorCodes
  | _ => False

instance (a : AttemptOutcome) : Decidable (retryableHttp a) := by
  cases a <;> simp [retryableHttp] <;> infer_instance

/-- The sleep performed after retryable attempt `i`. -/
def sleepAfter (a : AttemptOutcome) (i : Nat) : Int :=
  match a with
  | .httpError code retryAfter => if code = 429 then retryAfter.getD 30 else 2 ^ i
  | _ => 2 ^ i

/-- Skipping over `k` consecutive retryable attempts: the loop advances the
attempt counter by `k`, appending one sleep per retried attempt. -/
theorem callAzureGo_skip (o : Nat → AttemptOutcome) :
    ∀ (k attempt : Nat) (sleeps : List Int) (remaining : Nat), k ≤ remaining →
      (∀ i, i < k → retryableHttp (o (attempt + i))) →
      callAzureGo o remaining attempt sleeps =
        callAzureGo o (remaining - k) (attempt + k)
          (sleeps ++ (List.range k).map (fun j => sleepAfter (o (attempt + j)) (attempt + j))) := by
  intro k
  induction k with
  | zero => intro attempt sleeps remaining _ _; simp
  | succ k ih =>
      intro attempt sleeps remaining hle h
      obtain ⟨r, rfl⟩ : ∃ r, remaining = r + 1 := ⟨remaining - 1, by omega⟩
      have h0 : retryableHttp (o attempt) := by
        have := h 0 (by omega)
        simpa using this
      cases ho : o attempt with
      | success resp => rw [ho] at h0; simp [retryableHttp] at h0
      | exc msg => rw [ho] at h0; simp [retryableHttp] at h0
      | httpError code retryAfter =>
        rw [ho] at h0
        simp only [retryableHttp] at h0
        have step : ∀ (s : List Int),
            callAzureGo o (r + 1) attempt s =
              callAzureGo o r (attempt + 1) (s ++ [sleepAfter (o attempt) attempt]) := by
          intro s
          rcases h0 with h429 | hsrv
          · simp [callAzureGo, ho, h429, sleepAfter]
          · by_cases h429 : code = 429
            · simp [callAzureGo, ho, h429, sleepAfter]
            · simp [callAzureGo, ho, h429, hsrv, sleepAfter]
        rw [step]
        have ih' := ih (attempt + 1) (sleeps ++ [sleepAfter (o attempt) attempt]) r
          (by omega) (fun i hi => by
            have := h (i + 1) (by omega)
            have harith : attempt + (i + 1) = attempt + 1 + i := by omega
            rwa [harith] at this)
        rw [ih']
        have hrem : r - k = r + 1 - (k + 1) := by omega
        have hatt : attempt + 1 + k = attempt + (k + 1) := by omega
        rw [hrem, hatt]
        congr 1
        rw [List.append_assoc]
        congr 1
        rw [List.range_succ_eq_map, List.map_cons, List.map_map]
        simp only [Nat.add_zero, List.singleton_append]
        congr 1
        apply List.map_congr_left
        intro j _
        have : attempt + 1 + j = attempt + (j + 1) := by omega
        simp [Function.comp, this]

/-- C7. The retry policy of the model-call helper
(`_call_azure_openai`, `lawyer_brain.py` 196-222; the same loop appears in
`legal_workflow.py` 153-183): 429 and 500/502/503/504 responses are retried
(sleeping the parsed `Retry-After` hint, default 30, for a 429, and `2 ^
attempt` for a server error), the loop is capped at 6 attempts, after which
it raises the fatal "Max retries exceeded" error; any other HTTP status
raises a fatal API error at once, consuming no further attempts. -/
theorem azure_retry_policy (o : Nat → AttemptOutcome) :
    (∀ k, k < azureMaxRetries → (∀ i, i < k → retryableHttp (o i)) →
      ∀ code retryAfter, o k = .httpError code retryAfter → ¬ retryableHttp (o k) →
        callAzureOpenAI o =
          ⟨.error ("Azure OpenAI API error " ++ toString code),
           (List.range k).map (fun i => sleepAfter (o i) i), k + 1⟩)
  ∧ ((∀ i, i < azureMaxRetries → retryableHttp (o i)) →
        callAzureOpenAI o =
          ⟨.error "Max retries exceeded for Azure OpenAI API",
           (List.range azureMaxRetries).map (fun i => sleepAfter (o i) i), azureMaxRetries⟩)
  ∧ (∀ i retryAfter, o i = .httpError 429 retryAfter →
        sleepAfter (o i) i = retryAfter.getD 30)
  ∧ (∀ i code retryAfter, o i = .httpError code retryAfter → code ≠ 429 →
        sleepAfter (o i) i = 2 ^ i) := by
  refine ⟨?_, ?_, ?_, ?_⟩
  · intro k hk htrans code retryAfter ho hnr
    unfold callAzureOpenAI
    rw [callAzureGo_skip o k 0 [] azureMaxRetries (by omega)
      (fun i hi => by simpa using htrans i hi)]
    obtain ⟨r, hr⟩ : ∃ r, azureMaxRetries - k = r + 1 := ⟨azureMaxRetries - k - 1, by
      unfold azureMaxRetries at hk ⊢; omega⟩
    rw [hr]
    simp only [Nat.zero_add]
    have hnr' : ¬ (code = 429 ∨ code ∈ serverErrorCodes) := by
      rw [ho] at hnr; simpa [retryableHttp] using hnr
    push_neg at hnr'
    simp [callAzureGo, ho, hnr'.1, hnr'.2]
  · intro htrans
    unfold callAzureOpenAI
    rw [callAzureGo_skip o azureMaxRetries 0 [] azureMaxRetries (by omega)
      (fun i hi => by simpa using htrans i hi)]
    simp [callAzureGo]
  · intro i retryAfter ho
    simp [ho, sleepAfter]
  · intro i code retryAfter ho hne
    simp [ho, sleepAfter, hne]

/-! ## The sandboxed filesystem tool (`advanced_tools.py`)

Paths are modelled as strings; resolved absolute paths as lists of
components below the filesystem root.  Symbolic links are not modelled
(`Path.resolve` is lexical here).  Timestamps are not modelled (rendered as
`null` in listings).  PDF/DOCX text extraction and JSON text parsing are
parameters of the model (`FsEnv`): they are leaf data transforms of
out-of-scope libraries. -/

/-- `os.path.normpath` for POSIX, following CPython: collapse `.` and empty
components, resolve `..` lexically (keeping leading `..` on relative
paths), preserve an initial `/` (doubled `//` kept as per POSIX). -/
def pyNormpath (path : String) : String :=
  if path = "" then "." else
  let initialSlashes : Nat :=
    if strStartsWith path "/" then
      if strStartsWith path "//" && !strStartsWith path "///" then 2 else 1
    else 0
  let comps := splitChar '/' path
  let newComps := comps.foldl (fun acc comp =>
    if comp = "" || comp = "." then acc
    else if comp ≠ ".." || (initialSlashes = 0 && acc = []) ||
        (acc ≠ [] && acc.getLast? = some "..") then acc ++ [comp]
    else acc.dropLast) []
  let joined := String.intercalate "/" newComps
  let joined := String.join (List.replicate initialSlashes "/") ++ joined
  if joined = "" then "." else joined

/-- `path.lstrip("/\\")` -/
def stripLeadingSlashes (path : String) : String :=
  String.mk (path.data.dropWhile (fun c => c = '/' || c = '\\'))

/-- Lexically resolve relative components against an absolute base
(`Path.resolve` with no symlinks): `..` at the root stays at the root. -/
def resolveComps (base : List String) (comps : List String) : List String :=
  comps.foldl (fun acc c =>
    if c = "" || c = "." then acc
    else if c = ".." then acc.dropLast
    else acc ++ [c]) base

/-- Render an absolute path for the violation message. -/
def showAbsPath (p : List String) : String :=
  "/" ++ String.intercalate "/" p

/-- The `SandboxViolationError` message raised by `_resolve_path`. -/
def sandboxViolationMsg (path : String) (root : List String) : String :=
  "Path \x27" ++ path ++ "\x27 escapes the sandbox directory. " ++
    "All operations must be within \x27" ++ showAbsPath root ++ "\x27"

/-- `FileSystemTool._resolve_path` (`advanced_tools.py` 84-115): normalize,
strip leading slashes, join to the sandbox root, resolve, and reject the
result unless the root is a prefix of it. -/
def resolvePath (root : List String) (path : String) : Except String (List String) :=
  let normalized := pyNormpath path
  let normalized := stripLeadingSlashes normalized
  let fullPath := resolveComps root (splitChar '/' normalized)
  -- full_path.relative_to(self.sandbox_root) succeeds iff root is a prefix
  if fullPath.take root.length = root then .ok fullPath
  else .error (sandboxViolationMsg path root)

/-- `_get_relative_path` (it is only called on in-sandbox paths here). -/
def relPathStr (root full : List String) : String :=
  String.intercalate "/" (full.drop root.length)

/-- An entry of the modelled filesystem. -/
inductive FSEntry where
  | file (content : String)
  | dir
  deriving Repr, DecidableEq

/-- The filesystem: a finite map from absolute paths to entries. -/
structure FSState where
  entries : List (List String × FSEntry)
  deriving Repr, DecidableEq

def FSState.lookup (fs : FSState) (p : List String) : Option FSEntry :=
  (fs.entries.find? (fun e => e.1 = p)).map (·.2)

def FSState.exists (fs : FSState) (p : List String) : Bool :=
  (fs.lookup p).isSome

def FSState.isDir (fs : FSState) (p : List String) : Bool :=
  fs.lookup p = some .dir

def FSState.setEntry (fs : FSState) (p : List String) (e : FSEntry) : FSState :=
  if fs.entries.any (fun q => q.1 = p) then
    ⟨fs.entries.map (fun q => if q.1 = p then (p, e) else q)⟩
  else
    ⟨fs.entries ++ [(p, e)]⟩

/-- `file_path.parent.mkdir(parents=True, exist_ok=True)`: ensure every
proper prefix of the path exists as a directory. -/
def FSState.ensureParents (fs : FSState) (p : List String) : FSState :=
  (List.range p.length).foldl (fun acc n =>
    let pre := p.take n
    if acc.exists pre then acc else acc.setEntry pre .dir) fs

/-- Out-of-scope leaf transforms used by the reader: JSON text parsing
(`json.loads`), PDF text extraction (returns text and page count, `none`
when the library is unavailable or extraction fails), DOCX extraction
(text and paragraph count). -/
structure FsEnv where
  jsonParse : String → Option JValue
  pdfText : String → Option (String × Nat)
  docxText : String → Option (String × Nat)

/-- A plain failure result dict. -/
def errRes (msg : String) : JValue :=
  .obj [("success", .bool false), ("error", .str msg)]

/-- `Path.suffix` of a final path component (extension including the dot;
empty for dotfiles and names with no dot). -/
def pathSuffix (name : String) : String :=
  let parts := splitChar '.' name
  if parts.length ≤ 1 then ""
  else if strStartsWith name "." && parts.length = 2 then ""
  else
    let last := parts.getLast!
    if last = "" then "" else "." ++ last

def lastComponent (p : List String) : String :=
  p.getLast?.getD ""

/-- `READABLE_EXTENSIONS` (class attribute). -/
def readableExtensions : List String :=
  [".txt", ".md", ".py", ".js", ".ts", ".json", ".yaml", ".yml",
   ".html", ".css", ".csv", ".xml", ".log", ".ini", ".cfg", ".docx", ".pdf"]

/-- `WRITABLE_EXTENSIONS` (class attribute). -/
def writableExtensions : List String :=
  [".txt", ".md", ".json", ".yaml", ".yml", ".csv", ".html", ".xml", ".log"]

/-- `FileSystemTool._read_text` (encodings are not modelled: the stored
string is returned as the content). -/
def readTextFile (root full : List String) (content : String) : JValue :=
  .obj [("success", .bool true), ("path", .str (relPathStr root full)),
        ("content", .str content), ("size", .num content.length),
        ("type", .str "text")]

/-- `FileSystemTool._read_json`. -/
def readJsonFile (env : FsEnv) (root full : List String) (content : String) : JValue :=
  match env.jsonParse content with
  | some data =>
      .obj [("success", .bool true), ("path", .str (relPathStr root full)),
            ("content", .str content), ("data", data),
            ("size", .num content.length), ("type", .str "json")]
  | none => errRes "Invalid JSON"

/-- `FileSystemTool._read_pdf`. -/
def readPdfFile (env : FsEnv) (root full : List String) (content : String) : JValue :=
  match env.pdfText content with
  | some (text, pages) =>
      .obj [("success", .bool true), ("path", .str (relPathStr root full)),
            ("content", .str text), ("size", .num text.length),
            ("page_count", .num pages), ("type", .str "pdf")]
  | none =>
      .obj [("success", .bool false),
            ("error", .str "PDF reading requires PyPDF2 or pdfplumber. Install with: pip install PyPDF2"),
            ("path", .str (relPathStr root full)), ("type", .str "pdf")]

/-- `FileSystemTool._read_docx`. -/
def readDocxFile (env : FsEnv) (root full : List String) (content : String) : JValue :=
  match env.docxText content with
  | some (text, paragraphs) =>
      .obj [("success", .bool true), ("path", .str (relPathStr root full)),
            ("content", .str text), ("size", .num text.length),
            ("paragraph_count", .num paragraphs), ("type", .str "docx")]
  | none =>
      .obj [("success", .bool false),
            ("error", .str "DOCX reading requires python-docx. Install with: pip install python-docx"),
            ("path", .str (relPathStr root full)), ("type", .str "docx")]

/-- `FileSystemTool.read_file` (`advanced_tools.py` 251-299).  The
surrounding `try` converts a `SandboxViolationError` — and any other
exception, such as the `TypeError` of comparing against a non-numeric
`max_size` — into a failure result. -/
def readFile (env : FsEnv) (fs : FSState) (root : List String)
    (path : JValue) (maxSize : JValue) : JValue :=
  match path with
  | .str p =>
      match resolvePath root p with
      | .error msg => errRes msg
      | .ok full =>
          match fs.lookup full with
          | none => errRes ("File not found: " ++ p)
          | some .dir => errRes ("Cannot read directory as file: " ++ p)
          | some (.file content) =>
              let size : ℚ := content.length
              let sizeOk : Except PyExc Bool :=
                match maxSize with
                | .num m => .ok (decide (size > m))
                | .bool b => .ok (decide (size > (if b then (1 : ℚ) else 0)))
                | _ => .error (.typeError "not supported between instances of int and other")
              match sizeOk with
              | .error e => errRes e.message
              | .ok tooLarge =>
                  if tooLarge then
                    errRes ("File too large (" ++ toString content.length ++ " bytes)")
                  else
                    let extension := strLower (pathSuffix (lastComponent full))
                    if extension = ".pdf" then readPdfFile env root full content
                    else if extension = ".docx" then readDocxFile env root full content
                    else if extension = ".json" then readJsonFile env root full content
                    else readTextFile root full content
  | _ => errRes "expected str, bytes or os.PathLike object"

/-- `FileSystemTool.write_file` (`advanced_tools.py` 435-489).  Returns the
result dict together with the updated filesystem. -/
def writeFile (fs : FSState) (root : List String)
    (path content overwrite : JValue) : JValue × FSState :=
  match path with
  | .str p =>
      match resolvePath root p with
      | .error msg => (errRes msg, fs)
      | .ok full =>
          let extension := strLower (pathSuffix (lastComponent full))
          if extension ≠ "" && !(writableExtensions.contains extension) then
            (errRes ("Cannot write to " ++ extension ++ " files. Allowed: " ++
              String.intercalate ", " writableExtensions), fs)
          else if fs.exists full && !(pyTruthy overwrite) then
            (errRes ("File already exists: " ++ p ++ ". Set overwrite=True to replace."), fs)
          else
            -- parent directories are created before the write is attempted
            let fs1 := fs.ensureParents full
            match content with
            | .str c =>
                match fs1.lookup full with
                | some .dir => (errRes ("Is a directory: " ++ p), fs1)
                | _ =>
                    let fs2 := fs1.setEntry full (.file c)
                    -- "overwritten": file_path.exists() and overwrite, evaluated
                    -- after the write, so the exists() test is always true
                    (.obj [("success", .bool true), ("path", .str (relPathStr root full)),
                           ("size", .num c.length),
                           ("overwritten", .bool (pyTruthy overwrite))], fs2)
            | _ => (errRes "write_text argument must be str", fs1)
  | _ => (errRes "expected str, bytes or os.PathLike object", fs)

/-- `FileSystemTool.append_file` (`advanced_tools.py` 491-521). -/
def appendFile (fs : FSState) (root : List String)
    (path content : JValue) : JValue × FSState :=
  match path with
  | .str p =>
      match resolvePath root p with
      | .error msg => (errRes msg, fs)
      | .ok full =>
          match fs.lookup full with
          | none => (errRes ("File not found: " ++ p), fs)
          | some .dir => (errRes ("Is a directory: " ++ p), fs)
          | some (.file c) =>
              match content with
              | .str extra =>
                  (.obj [("success", .bool true), ("path", .str (relPathStr root full)),
                         ("appended_size", .num extra.length)],
                   fs.setEntry full (.file (c ++ extra)))
              | _ => (errRes "write argument must be str", fs)
  | _ => (errRes "expected str, bytes or os.PathLike object", fs)

/-- `FileSystemTool.file_exists` (`advanced_tools.py` 560-577). -/
def fileExists (fs : FSState) (root : List String) (path : JValue) : JValue :=
  match path with
  | .str p =>
      match resolvePath root p with
      | .error msg => errRes msg
      | .ok full =>
          let ex := fs.exists full
          .obj [("success", .bool true), ("path", .str (relPathStr root full)),
                ("exists", .bool ex),
                ("is_file", if ex then .bool (!fs.isDir full) else .null),
                ("is_directory", if ex then .bool (fs.isDir full) else .null)]
  | _ => errRes "expected str, bytes or os.PathLike object"

/-- `FileSystemTool.create_directory` (`advanced_tools.py` 523-558). -/
def createDirectory (fs : FSState) (root : List String) (path : JValue) :
    JValue × FSState :=
  match path with
  | .str p =>
      match resolvePath root p with
      | .error msg => (errRes msg, fs)
      | .ok full =>
          match fs.lookup full with
          | some .dir =>
              (.obj [("success", .bool true), ("path", .str (relPathStr root full)),
                     ("already_existed", .bool true)], fs)
          | some (.file _) => (errRes ("A file exists at " ++ p), fs)
          | none =>
              (.obj [("success", .bool true), ("path", .str (relPathStr root full)),
                     ("already_existed", .bool false)],
               (fs.ensureParents full).setEntry full .dir)
  | _ => (errRes "expected str, bytes or os.PathLike object", fs)

/-- Children of a directory, sorted by name (`sorted(dir_path.iterdir())`). -/
def FSState.children (fs : FSState) (p : List String) : List (String × FSEntry) :=
  ((fs.entries.filterMap (fun e =>
      if e.1.length = p.length + 1 && e.1.take p.length = p then
        (lastComponent e.1, e.2)
      else none)).mergeSort (fun a b => a.1 ≤ b.1))

/-- `FileInfo.to_dict` for a directory listing entry (timestamps are not
modelled and rendered as `null`). -/
def fileInfoDict (root : List String) (p : List String) (e : FSEntry) : JValue :=
  .obj [("name", .str (lastComponent p)), ("path", .str (relPathStr root p)),
        ("size", .num (match e with | .file c => c.length | .dir => 0)),
        ("is_directory", .bool (e = .dir)),
        ("extension", .str (match e with
          | .file _ => strLower (pathSuffix (lastComponent p))
          | .dir => "")),
        ("modified_time", .null)]

/-- `FileSystemTool.list_directory` (`advanced_tools.py` 124-170). -/
def listDirectory (fs : FSState) (root : List String) (path : JValue) : JValue :=
  match path with
  | .str p =>
      match resolvePath root p with
      | .error msg => errRes msg
      | .ok full =>
          if !fs.exists full then errRes ("Directory not found: " ++ p)
          else if !fs.isDir full then errRes ("Not a directory: " ++ p)
          else
            let items := (fs.children full).map (fun c =>
              fileInfoDict root (full ++ [c.1]) c.2)
            .obj [("success", .bool true), ("path", .str (relPathStr root full)),
                  ("item_count", .num items.length), ("items", .arr items)]
  | _ => errRes "expected str, bytes or os.PathLike object"

/-- Python `ext in extensions` as used by the recursive lister:
list membership, or substring test when the filter is a string. -/
def pyExtIn (ext : String) (extensions : JValue) : Except PyExc Bool :=
  match extensions with
  | .arr xs => .ok (xs.contains (.str ext))
  | .str s => .ok (containsSub s ext)
  | .obj kvs => .ok ((kvs.map (·.1)).contains ext)
  | _ => .error (.typeError "argument of type is not iterable")

/-- The `scan_directory` recursion of `list_directory_recursive`
(`advanced_tools.py` 201-233), with explicit recursion fuel (the depth test
`depth > max_depth` bounds the recursion; the fuel is just large enough
never to be the binding constraint). -/
def scanDirectory (fs : FSState) (root : List String) (maxDepth : ℚ)
    (extensions : JValue) :
    Nat → List String → Nat → List JValue × List String → Except PyExc (List JValue × List String)
  | 0, _, _, acc => .ok acc
  | fuel + 1, current, depth, acc =>
      if (depth : ℚ) > maxDepth then .ok acc
      else
        (fs.children current).foldlM (fun acc c =>
          let itemPath := current ++ [c.1]
          match c.2 with
          | .dir =>
              scanDirectory fs root maxDepth extensions fuel itemPath (depth + 1)
                (acc.1, acc.2 ++ [relPathStr root itemPath])
          | .file content => do
              let keep ←
                if pyTruthy extensions then do
                  let isIn ← pyExtIn (strLower (pathSuffix c.1)) extensions
                  pure isIn
                else pure true
              if keep then
                pure (acc.1 ++ [.obj [("name", .str c.1),
                  ("path", .str (relPathStr root itemPath)),
                  ("size", .num content.length), ("is_directory", .bool false),
                  ("extension", .str (strLower (pathSuffix c.1))),
                  ("modified_time", .null)]], acc.2)
              else pure acc) acc

/-- `FileSystemTool.list_directory_recursive` (`advanced_tools.py`
172-249).  A dynamic-typing failure inside the scan is caught by the
enclosing `except Exception` and reported as a failure result. -/
def listDirectoryRecursive (fs : FSState) (root : List String)
    (path maxDepth extensions : JValue) : JValue :=
  match path with
  | .str p =>
      match resolvePath root p with
      | .error msg => errRes msg
      | .ok full =>
          if !fs.exists full then errRes ("Directory not found: " ++ p)
          else if !fs.isDir full then errRes ("Not a directory: " ++ p)
          else
            match maxDepth with
            | .num m =>
                let fuel := m.ceil.toNat + 2
                match scanDirectory fs root m extensions fuel full 0 ([], []) with
                | .error e => errRes e.message
                | .ok (files, directories) =>
                    .obj [("success", .bool true),
                          ("base_path", .str (relPathStr root full)),
                          ("total_files", .num files.length),
                          ("total_directories", .num directories.length),
                          ("files", .arr files),
                          ("directories", .arr (directories.map JValue.str))]
            | _ => errRes "not supported between instances of int and other"
  | _ => errRes "expected str, bytes or os.PathLike object"

/-- `FileSystemTool.get_file_info` (`advanced_tools.py` 579-606). -/
def getFileInfo (fs : FSState) (root : List String) (path : JValue) : JValue :=
  match path with
  | .str p =>
      match resolvePath root p with
      | .error msg => errRes msg
      | .ok full =>
          match fs.lookup full with
          | none => errRes ("File not found: " ++ p)
          | some e =>
              let ext := strLower (pathSuffix (lastComponent full))
              .obj [("success", .bool true), ("path", .str (relPathStr root full)),
                    ("name", .str (lastComponent full)), ("extension", .str ext),
                    ("size", .num (match e with | .file c => c.length | .dir => 0)),
                    ("is_file", .bool (e ≠ .dir)), ("is_directory", .bool (e = .dir)),
                    ("created_time", .null), ("modified_time", .null),
                    ("readable", .bool (readableExtensions.contains ext)),
                    ("writable", .bool (writableExtensions.contains ext))]
  | _ => errRes "expected str, bytes or os.PathLike object"

/-- `execute_filesystem_tool` (`advanced_tools.py` 737-777): the
`tool_map` dispatch with the documented argument defaults.  Returns the
result and the possibly-updated filesystem. -/
def executeFilesystemTool (env : FsEnv) (root : List String)
    (toolName : JValue) (args : List (String × JValue)) (fs : FSState) :
    JValue × FSState :=
  if toolName = .str "list_directory" then
    (listDirectory fs root (jget args "path" (.str ".")), fs)
  else if toolName = .str "list_directory_recursive" then
    (listDirectoryRecursive fs root (jget args "path" (.str "."))
      (jget args "max_depth" (.num 10)) (jget args "extensions" .null), fs)
  else if toolName = .str "read_file" then
    (readFile env fs root (jget args "path" (.str ""))
      (jget args "max_size" (.num 1000000)), fs)
  else if toolName = .str "write_file" then
    writeFile fs root (jget args "path" (.str "")) (jget args "content" (.str ""))
      (jget args "overwrite" (.bool false))
  else if toolName = .str "file_exists" then
    (fileExists fs root (jget args "path" (.str "")), fs)
  else if toolName = .str "create_directory" then
    createDirectory fs root (jget args "path" (.str ""))
  else if toolName = .str "get_file_info" then
    (getFileInfo fs root (jget args "path" (.str "")), fs)
  else if toolName = .str "append_file" then
    appendFile fs root (jget args "path" (.str "")) (jget args "content" (.str ""))
  else
    (errRes ("Unknown filesystem tool: " ++ pyStr toolName), fs)

/-- C8. Every sandboxed file operation resolves its path against the fixed
sandbox root (`FileSystemTool._resolve_path`); whenever resolution escapes
the root the operation returns the sandbox-violation failure result and
leaves the filesystem untouched — in particular the read result does not
depend on the filesystem at all, so no file outside the root is read. -/
theorem sandbox_escape_rejected (env : FsEnv) (fs : FSState) (root : List String)
    (p : String) (msg : String) (maxSize content overwrite : JValue)
    (h : resolvePath root p = .error msg) :
    readFile env fs root (.str p) maxSize = errRes msg ∧
    (∀ env' fs', readFile env' fs' root (.str p) maxSize =
      readFile env fs root (.str p) maxSize) ∧
    writeFile fs root (.str p) content overwrite = (errRes msg, fs) ∧
    appendFile fs root (.str p) content = (errRes msg, fs) ∧
    createDirectory fs root (.str p) = (errRes msg, fs) ∧
    fileExists fs root (.str p) = errRes msg ∧
    listDirectory fs root (.str p) = errRes msg ∧
    listDirectoryRecursive fs root (.str p) maxSize content = errRes msg ∧
    getFileInfo fs root (.str p) = errRes msg := by
  refine ⟨?_, ?_, ?_, ?_, ?_, ?_, ?_, ?_, ?_⟩ <;>
    simp [readFile, writeFile, appendFile, createDirectory, fileExists,
      listDirectory, listDirectoryRecursive, getFileInfo, h]

/-- The sandbox root used by the concrete sandbox witness. -/
def witnessRoot : List String := ["home", "lawyer", "case_data"]

/-- A tiny filesystem that does contain `/etc/passwd`, outside the root. -/
def witnessFs : FSState :=
  ⟨[(["etc", "passwd"], .file "root:x:0:0"), (witnessRoot, .dir),
    (witnessRoot ++ ["notes.txt"], .file "case notes")]⟩

/-- Witness for `sandbox_escape_rejected`: `read_file` on
`../../etc/passwd` yields the sandbox-violation failure result even though
the file exists on the filesystem. -/
theorem sandbox_escape_rejected_witness :
    resolvePath witnessRoot "../../etc/passwd" =
      .error (sandboxViolationMsg "../../etc/passwd" witnessRoot) ∧
    readFile ⟨fun _ => none, fun _ => none, fun _ => none⟩ witnessFs witnessRoot
        (.str "../../etc/passwd") (.num 1000000) =
      errRes (sandboxViolationMsg "../../etc/passwd" witnessRoot) := by
  constructor
  · decide
  · exact (sandbox_escape_rejected ⟨fun _ => none, fun _ => none, fun _ => none⟩
      witnessFs witnessRoot "../../etc/passwd"
      (sandboxViolationMsg "../../etc/passwd" witnessRoot)
      (.num 1000000) .null .null (by decide)).1

/-! ## The learning manager (`learning.py`)

Timestamps are threaded as an explicit `now : String` argument.  Dict keys
coming from tool arguments are arbitrary JSON values (Python only requires
hashability), so the preference map is keyed by `JValue`; using an
unhashable key (a list or dict) raises `TypeError` exactly where Python
would.  Persistence: `_save_observations` truncates what it writes to the
500 most recent records, so the persisted store is modelled as its own
field; the other `_save_*` helpers write their store wholly and are
modelled as no-ops. -/

/-- Python considers lists and dicts unhashable. -/
def unhashable : JValue → Bool
  | .arr _ => true
  | .obj _ => true
  | _ => false

/-- Python iteration over a value (as needed by `list.extend`):
lists iterate their elements, strings their characters, dicts their keys. -/
def pyIterate : JValue → Except PyExc (List JValue)
  | .arr xs => .ok xs
  | .str s => .ok (s.data.map (fun c => .str (String.mk [c])))
  | .obj kvs => .ok (kvs.map (fun p => .str p.1))
  | _ => .error (.typeError "object is not iterable")

/-- Insertion-ordered dict keyed by JSON values. -/
def lookupJ (m : List (JValue × α)) (k : JValue) : Option α :=
  (m.find? (fun p => p.1 = k)).map (·.2)

def setJ (m : List (JValue × α)) (k : JValue) (v : α) : List (JValue × α) :=
  if m.any (fun p => p.1 = k) then
    m.map (fun p => if p.1 = k then (k, v) else p)
  else
    m ++ [(k, v)]

/-- `StylePreference` (`learning.py` 31-48).  The dynamically-typed fields
hold JSON values; `confidence` is the float modelled as a rational. -/
structure StylePreference where
  topic : JValue
  instruction : JValue
  examples : JValue
  source : JValue
  confidence : ℚ
  createdAt : String
  lastUsed : Option String
  useCount : Nat
  deriving Repr, DecidableEq

def StylePreference.toDict (p : StylePreference) : JValue :=
  .obj [("topic", p.topic), ("instruction", p.instruction),
        ("examples", p.examples), ("source", p.source),
        ("confidence", .num p.confidence), ("created_at", .str p.createdAt),
        ("last_used", match p.lastUsed with | some t => .str t | none => .null),
        ("use_count", .num p.useCount)]

/-- `WorkflowPattern` (`learning.py` 65-86). -/
structure WorkflowPattern where
  taskType : String
  actionSequence : JValue
  matterType : JValue
  successCount : Nat
  failureCount : Nat
  avgTimeSeconds : ℚ
  createdAt : String
  lastUsed : String
  notes : JValue
  deriving Repr, DecidableEq

/-- `WorkflowPattern.success_rate`. -/
def WorkflowPattern.successRate (p : WorkflowPattern) : ℚ :=
  if p.successCount + p.failureCount > 0 then
    (p.successCount : ℚ) / ((p.successCount : ℚ) + (p.failureCount : ℚ))
  else 0

/-- `UserBehaviorPattern` (`learning.py` 89-106). -/
structure UserBehaviorPattern where
  triggerContext : JValue
  typicalAction : JValue
  matterTypes : List JValue
  frequency : Nat
  priorityLevel : JValue
  timeSensitivity : JValue
  notes : JValue
  createdAt : String
  lastSeen : String
  deriving Repr, DecidableEq

/-- `ObservationRecord` (`learning.py` 109-126). -/
structure ObservationRecord where
  taskDescription : JValue
  actionsTaken : JValue
  outcome : JValue
  matterId : JValue
  matterType : JValue
  clientFeedback : JValue
  timeTakenSeconds : ℚ
  createdAt : String
  lessonsLearned : JValue
  deriving Repr, DecidableEq

/-- The in-memory state of a `LearningManager` (`learning.py` 129-166),
plus the persisted observation store written by `_save_observations`. -/
structure LearnState where
  preferences : List (JValue × StylePreference)
  workflows : List (String × WorkflowPattern)
  behaviors : List UserBehaviorPattern
  observations : List ObservationRecord
  savedObservations : List ObservationRecord
  deriving Repr, DecidableEq

/-- `LearningManager.update_preference` (`learning.py` 376-428).  Returns
the state after the call together with the result (or the exception raised
part-way; mutations made before the raise are kept, as on a Python
object). -/
def updatePreference (st : LearnState) (topic instruction examples source : JValue)
    (now : String) : LearnState × Except PyExc JValue :=
  -- self._preferences.get(topic) raises TypeError on an unhashable key
  if unhashable topic then
    (st, .error (.typeError "unhashable type"))
  else
    match lookupJ st.preferences topic with
    | some existing =>
        -- existing.instruction = instruction
        let p1 := { existing with instruction := instruction }
        -- if examples: existing.examples.extend(examples);
        --              existing.examples = list(set(existing.examples))[:10]
        -- (Python set iteration order is unspecified; first-occurrence
        -- order stands in for it)
        let exStep : Except PyExc JValue :=
          if pyTruthy examples then
            match p1.examples with
            | .arr xs =>
                match pyIterate examples with
                | .error e => .error e
                | .ok new =>
                    let combined := xs ++ new
                    if combined.any unhashable then
                      .error (.typeError "unhashable type")
                    else .ok (.arr (combined.eraseDups.take 10))
            | _ => .error (.attributeError "object has no attribute extend")
          else .ok p1.examples
        match exStep with
        | .error e =>
            ({ st with preferences := setJ st.preferences topic p1 }, .error e)
        | .ok exs =>
            let p2 := { p1 with
              examples := exs
              confidence := pyMin 1 (existing.confidence + 1/10)
              useCount := existing.useCount + 1
              lastUsed := some now }
            -- _save_preferences() rewrites the whole store (modelled in place)
            ({ st with preferences := setJ st.preferences topic p2 },
             .ok (.obj [("success", .bool true), ("topic", topic),
                        ("instruction", instruction), ("action", .str "updated")]))
    | none =>
        let fresh : StylePreference :=
          { topic := topic, instruction := instruction,
            examples := if pyTruthy examples then examples else .arr [],
            source := source, confidence := 1/2, createdAt := now,
            lastUsed := none, useCount := 0 }
        ({ st with preferences := setJ st.preferences topic fresh },
         .ok (.obj [("success", .bool true), ("topic", topic),
                    ("instruction", instruction), ("action", .str "created")]))

/-- `LearningManager.record_workflow` (`learning.py` 646-708). -/
def recordWorkflow (st : LearnState) (taskType actionSequence : JValue)
    (success : Bool) (matterType : JValue) (timeTaken : ℚ) (notes : JValue)
    (now : String) : LearnState × JValue :=
  let key := pyStr taskType ++ ":" ++
    (if pyTruthy matterType then pyStr matterType else "general")
  let updated : WorkflowPattern :=
    match dictGet? st.workflows key with
    | some pattern =>
        if success then
          let p1 := { pattern with successCount := pattern.successCount + 1 }
          let totalTime := p1.avgTimeSeconds * ((p1.successCount : ℚ) - 1) + timeTaken
          let p2 := { p1 with avgTimeSeconds := totalTime / (p1.successCount : ℚ) }
          let p3 :=
            if actionSequence ≠ p2.actionSequence then
              if p2.successRate > (8 : ℚ)/10 then p2
              else { p2 with actionSequence := actionSequence }
            else p2
          { p3 with
            lastUsed := now
            notes := if pyTruthy notes then notes else p3.notes }
        else
          { pattern with
            failureCount := pattern.failureCount + 1
            lastUsed := now
            notes := if pyTruthy notes then notes else pattern.notes }
    | none =>
        { taskType := pyStr taskType, actionSequence := actionSequence,
          matterType := matterType,
          successCount := if success then 1 else 0,
          failureCount := if success then 0 else 1,
          avgTimeSeconds := timeTaken, createdAt := now, lastUsed := now,
          notes := notes }
  let st' := { st with workflows := dictSet st.workflows key updated }
  (st', .obj [("success", .bool true), ("pattern_key", .str key),
              ("success_rate", .num updated.successRate),
              ("message", .str ("Recorded workflow for " ++ pyStr taskType))])

/-- The result dict built by `get_recommended_workflow` from a pattern. -/
def workflowDict (p : WorkflowPattern) (source : String) : JValue :=
  .obj [("action_sequence", p.actionSequence),
        ("success_rate", .num p.successRate),
        ("avg_time_seconds", .num p.avgTimeSeconds),
        ("notes", p.notes), ("source", .str source)]

/-- `LearningManager.get_recommended_workflow` (`learning.py` 710-746). -/
def getRecommendedWorkflow (st : LearnState) (taskType matterType : JValue) :
    Option JValue :=
  let specific :=
    if pyTruthy matterType then
      match dictGet? st.workflows (pyStr taskType ++ ":" ++ pyStr matterType) with
      | some p => if p.successRate ≥ 1/2 then some (workflowDict p "matter_specific") else none
      | none => none
    else none
  match specific with
  | some r => some r
  | none =>
      match dictGet? st.workflows (pyStr taskType ++ ":general") with
      | some p => if p.successRate ≥ 1/2 then some (workflowDict p "general") else none
      | none => none

/-- `LearningManager.record_user_behavior` (`learning.py` 752-807). -/
def recordUserBehavior (st : LearnState)
    (triggerContext actionTaken matterType priority timeSensitivity notes : JValue)
    (now : String) : LearnState × JValue :=
  let st' :=
    match st.behaviors.findIdx? (fun b =>
        b.triggerContext = triggerContext && b.typicalAction = actionTaken) with
    | some i =>
        { st with behaviors := st.behaviors.mapIdx (fun j b =>
            if j = i then
              { b with
                frequency := b.frequency + 1
                lastSeen := now
                matterTypes :=
                  if pyTruthy matterType && !(b.matterTypes.contains matterType) then
                    b.matterTypes ++ [matterType]
                  else b.matterTypes
                priorityLevel := priority
                timeSensitivity := timeSensitivity }
            else b) }
    | none =>
        { st with behaviors := st.behaviors ++
            [{ triggerContext := triggerContext, typicalAction := actionTaken,
               matterTypes := if pyTruthy matterType then [matterType] else [],
               frequency := 1, priorityLevel := priority,
               timeSensitivity := timeSensitivity, notes := notes,
               createdAt := now, lastSeen := now }] }
  (st', .obj [("success", .bool true), ("trigger", triggerContext),
              ("action", actionTaken),
              ("message", .str "Recorded user behavior pattern")])

/-- `LearningManager.get_user_typical_action` (`learning.py` 809-842).
The `.lower()` calls raise on non-string fields. -/
def getUserTypicalAction (st : LearnState) (context matterType : JValue) :
    Except PyExc (Option JValue) := do
  let contextLower ←
    match context with
    | .str s => Except.ok (strLower s)
    | _ => Except.error (PyExc.attributeError "object has no attribute lower")
  let found ← st.behaviors.foldlM
    (fun (acc : List (UserBehaviorPattern × ℚ)) b => do
      let trigLower ←
        match b.triggerContext with
        | .str s => Except.ok (strLower s)
        | _ => Except.error (PyExc.attributeError "object has no attribute lower")
      if containsSub trigLower contextLower then
        let score : ℚ :=
          if pyTruthy matterType && b.matterTypes.contains matterType then
            (b.frequency : ℚ) * (3/2)
          else (b.frequency : ℚ)
        pure (acc ++ [(b, score)])
      else pure acc) []
  match found with
  | [] => pure none
  | _ =>
      -- matches.sort(key=lambda x: -x[1]); best = matches[0][0]
      let sorted := found.mergeSort (fun a b => a.2 ≥ b.2)
      match sorted with
      | [] => pure none
      | best :: _ =>
          pure (some (.obj [("typical_action", best.1.typicalAction),
            ("priority", best.1.priorityLevel),
            ("time_sensitivity", best.1.timeSensitivity),
            ("frequency", .num best.1.frequency),
            ("notes", best.1.notes)]))

/-- The keyword table of `get_relevant_preferences` (`learning.py` 585-592). -/
def preferenceKeywords : List (String × List String) :=
  [("motion", ["motion", "court", "filing", "pleading"]),
   ("memo", ["memo", "memorandum", "analysis", "research"]),
   ("letter", ["letter", "correspondence", "client"]),
   ("brief", ["brief", "argument", "appellate"]),
   ("contract", ["contract", "agreement", "terms"]),
   ("discovery", ["discovery", "interrogator", "deposition", "request"])]

/-- `LearningManager.get_relevant_preferences` (`learning.py` 576-617). -/
def getRelevantPreferences (st : LearnState) (taskDescription : JValue) :
    Except PyExc (List StylePreference) := do
  let taskLower ←
    match taskDescription with
    | .str s => Except.ok (strLower s)
    | _ => Except.error (PyExc.attributeError "object has no attribute lower")
  let relevant ← st.preferences.foldlM
    (fun (acc : List StylePreference) kp => do
      let pref := kp.2
      let topicLower ←
        match pref.topic with
        | .str s => Except.ok (strLower s)
        | _ => Except.error (PyExc.attributeError "object has no attribute lower")
      let instructionLower ←
        match pref.instruction with
        | .str s => Except.ok (strLower s)
        | _ => Except.error (PyExc.attributeError "object has no attribute lower")
      let hit := preferenceKeywords.any (fun ck =>
        ck.2.any (fun kw => containsSub taskLower kw) &&
        (containsSub topicLower ck.1 ||
          ck.2.any (fun kw => containsSub instructionLower kw)))
      let acc := if hit then acc ++ [pref] else acc
      let acc :=
        if pref.confidence ≥ 8/10 && containsSub topicLower "general" then
          acc ++ [pref]
        else acc
      pure acc) []
  -- deduplicate by topic, then sort by descending confidence
  let unique := (relevant.foldl (fun (acc : List StylePreference) p =>
    if acc.any (fun q => q.topic = p.topic) then acc else acc ++ [p]) [])
  pure (unique.mergeSort (fun a b => a.confidence ≥ b.confidence))

/-- The keyword table of `_infer_task_type` (`learning.py` 937-947). -/
def taskTypeKeywords : List (String × List String) :=
  [("matter_intake", ["intake", "new matter", "open matter", "onboard"]),
   ("motion_drafting", ["motion", "draft motion", "file motion"]),
   ("discovery", ["discovery", "interrogator", "request for production", "deposition"]),
   ("document_review", ["review document", "analyze document", "summarize document"]),
   ("client_communication", ["email client", "call client", "client update"]),
   ("research", ["research", "case law", "statute", "precedent"]),
   ("deadline_management", ["deadline", "calendar", "due date", "filing date"]),
   ("billing", ["time entry", "invoice", "billing", "hours"]),
   ("conflict_check", ["conflict", "conflict check", "adverse party"])]

/-- `LearningManager._infer_task_type` (`learning.py` 933-953). -/
def inferTaskType (description : JValue) : Except PyExc (Option String) :=
  match description with
  | .str s =>
      let descLower := strLower s
      .ok ((taskTypeKeywords.find? (fun tk =>
        tk.2.any (fun kw => containsSub descLower kw))).map (·.1))
  | _ => .error (.attributeError "object has no attribute lower")

/-- The observation record constructed by `record_observation`. -/
def mkObservation (taskDescription actionsTaken outcome matterId matterType : JValue)
    (timeTaken : ℚ) (lessons : JValue) (now : String) : ObservationRecord :=
  { taskDescription := taskDescription, actionsTaken := actionsTaken,
    outcome := outcome, matterId := matterId, matterType := matterType,
    clientFeedback := .null, timeTakenSeconds := timeTaken, createdAt := now,
    lessonsLearned := if pyTruthy lessons then lessons else .arr [] }

/-- `LearningManager.record_observation` (`learning.py` 876-931): append
the record, persist the 500 most recent records
(`_save_observations`, `learning.py` 285-297), then derive a workflow
pattern for successful outcomes. -/
def observationReturn (stF : LearnState) (outcome lessons : JValue) :
    LearnState × Except PyExc JValue :=
  -- "lessons_count": len(lessons or [])  (may raise, after all mutations)
  match (if pyTruthy lessons then pyLen lessons else .ok 0 : Except PyExc Nat) with
  | .error e => (stF, .error e)
  | .ok n =>
      (stF, .ok (.obj [("success", .bool true), ("outcome", outcome),
        ("lessons_count", .num n),
        ("total_observations", .num stF.observations.length)]))

def recordObservation (st : LearnState)
    (taskDescription actionsTaken outcome matterId matterType : JValue)
    (timeTaken : ℚ) (lessons : JValue) (now : String) :
    LearnState × Except PyExc JValue :=
  let obs := mkObservation taskDescription actionsTaken outcome matterId
    matterType timeTaken lessons now
  let st1 := { st with observations := st.observations ++ [obs] }
  -- _save_observations: recent_observations = self._observations[-500:]
  let st2 := { st1 with savedObservations := lastN 500 st1.observations }
  if outcome = .str "success" && pyTruthy actionsTaken then
    match inferTaskType taskDescription with
    | .error e => (st2, .error e)
    | .ok none => observationReturn st2 outcome lessons
    | .ok (some tt) =>
        observationReturn
          ((recordWorkflow st2 (.str tt) actionsTaken true matterType
            timeTaken (.str "") now).1) outcome lessons
  else observationReturn st2 outcome lessons

/-- `execute_learning_tool` (`learning.py` 1233-1293). -/
def executeLearningTool (toolName args : JValue) (st : LearnState) (now : String) :
    LearnState × Except PyExc JValue :=
  if toolName = .str "update_preference" then
    match args with
    | .obj kvs =>
        updatePreference st (jget kvs "topic" (.str ""))
          (jget kvs "instruction" (.str "")) (jget kvs "examples" (.arr []))
          (.str "agent_learned") now
    | _ => (st, .error (.attributeError "object has no attribute get"))
  else if toolName = .str "get_style_preferences" then
    match args with
    | .obj kvs =>
        match getRelevantPreferences st (jget kvs "task_description" (.str "")) with
        | .error e => (st, .error e)
        | .ok prefs =>
            (st, .ok (.obj [("success", .bool true),
              ("preferences", .arr (prefs.map StylePreference.toDict))]))
    | _ => (st, .error (.attributeError "object has no attribute get"))
  else if toolName = .str "record_workflow_success" then
    match args with
    | .obj kvs =>
        let (st', r) := recordWorkflow st (jget kvs "task_type" (.str ""))
          (jget kvs "actions" (.arr [])) true (jget kvs "matter_type" .null)
          0 (jget kvs "notes" (.str "")) now
        (st', .ok r)
    | _ => (st, .error (.attributeError "object has no attribute get"))
  else if toolName = .str "get_recommended_workflow" then
    match args with
    | .obj kvs =>
        match getRecommendedWorkflow st (jget kvs "task_type" (.str ""))
            (jget kvs "matter_type" .null) with
        | some w => (st, .ok (.obj [("success", .bool true), ("workflow", w)]))
        | none => (st, .ok (.obj [("success", .bool true), ("workflow", .null),
            ("message", .str "No workflow pattern found for this task type")]))
    | _ => (st, .error (.attributeError "object has no attribute get"))
  else if toolName = .str "record_observation" then
    match args with
    | .obj kvs =>
        recordObservation st (jget kvs "task_description" (.str ""))
          (jget kvs "actions_taken" (.arr [])) (jget kvs "outcome" (.str "partial"))
          .null .null 0 (jget kvs "lessons_learned" (.arr [])) now
    | _ => (st, .error (.attributeError "object has no attribute get"))
  else if toolName = .str "get_user_typical_action" then
    match args with
    | .obj kvs =>
        match getUserTypicalAction st (jget kvs "context" (.str ""))
            (jget kvs "matter_type" .null) with
        | .error e => (st, .error e)
        | .ok (some a) => (st, .ok (.obj [("success", .bool true), ("user_action", a)]))
        | .ok none => (st, .ok (.obj [("success", .bool true), ("user_action", .null),
            ("message", .str "No user behavior pattern found")]))
    | _ => (st, .error (.attributeError "object has no attribute get"))
  else if toolName = .str "record_user_behavior" then
    match args with
    | .obj kvs =>
        let (st', r) := recordUserBehavior st (jget kvs "trigger_context" (.str ""))
          (jget kvs "action_taken" (.str "")) .null (jget kvs "priority" (.str "medium"))
          (jget kvs "time_sensitivity" .null) (.str "") now
        (st', .ok r)
    | _ => (st, .error (.attributeError "object has no attribute get"))
  else
    (st, .ok (.obj [("success", .bool false),
      ("error", .str ("Unknown learning tool: " ++ pyStr toolName))]))

theorem lookupJ_setJ_self (m : List (JValue × α)) (k : JValue) (v : α) :
    lookupJ (setJ m k v) k = some v := by
  induction m with
  | nil => simp [setJ, lookupJ]
  | cons p m ih =>
      by_cases hp : p.1 = k
      · have hany : (p :: m).any (fun q => q.1 = k) = true := by
          simp [List.any_cons, hp]
        simp only [setJ, hany, if_pos]
        simp [lookupJ, List.find?, hp]
      · have hcons : setJ (p :: m) k v = p :: setJ m k v := by
          by_cases hm : m.any (fun q => q.1 = k)
          · simp [setJ, List.any_cons, hp, hm]
          · simp [setJ, List.any_cons, hp, hm]
        rw [hcons]
        simp only [lookupJ, List.find?]
        rw [show (decide (p.1 = k)) = false by simp [hp]]
        exact ih

/-- Replace the preference map of a learning state. -/
def withPrefs (st : LearnState) (m : List (JValue × StylePreference)) :
    LearnState :=
  { st with preferences := m }

/-- The record stored when a reinforcement raises while processing the
examples argument: only the instruction assignment has happened. -/
def prefTouched (existing : StylePreference) (instruction : JValue) :
    StylePreference :=
  { existing with instruction := instruction }

/-- The record stored by a completed reinforcement. -/
def prefReinforced (existing : StylePreference) (instruction examples : JValue)
    (now : String) : StylePreference :=
  { existing with
    instruction := instruction
    examples := examples
    confidence := pyMin 1 (existing.confidence + 1/10)
    useCount := existing.useCount + 1
    lastUsed := some now }

/-- On an existing topic, `update_preference` either raises after storing
only the new instruction, or completes and stores the reinforced record. -/
theorem updatePreference_reinforce_char (st : LearnState)
    (topic instruction examples source : JValue) (now : String)
    (hu : unhashable topic = false) (existing : StylePreference)
    (hlook : lookupJ st.preferences topic = some existing) :
    (∃ e, updatePreference st topic instruction examples source now =
        (withPrefs st (setJ st.preferences topic
          (prefTouched existing instruction)), .error e)) ∨
    (∃ exs r, updatePreference st topic instruction examples source now =
        (withPrefs st (setJ st.preferences topic
          (prefReinforced existing instruction exs now)), .ok r)) := by
  unfold updatePreference
  rw [hu]
  simp only [Bool.false_eq_true, if_false]
  rw [hlook]
  dsimp only
  split
  next e heq => exact Or.inl ⟨e, rfl⟩
  next exs heq => exact Or.inr ⟨exs, _, rfl⟩

/-- On an absent topic, `update_preference` creates the record with
confidence 0.5. -/
theorem updatePreference_create_char (st : LearnState)
    (topic instruction examples source : JValue) (now : String)
    (hu : unhashable topic = false)
    (hlook : lookupJ st.preferences topic = none) :
    ∃ p r, updatePreference st topic instruction examples source now =
        (withPrefs st (setJ st.preferences topic p), .ok r) ∧
      p.confidence = 1/2 := by
  unfold updatePreference
  rw [hu]
  simp only [Bool.false_eq_true, if_false]
  rw [hlook]
  exact ⟨_, _, rfl, rfl⟩

theorem pyMin_reinforce_ge (c : ℚ) (h : c ≤ 1) : c ≤ pyMin 1 (c + 1/10) := by
  unfold pyMin; split <;> linarith

theorem pyMin_reinforce_le_one (c : ℚ) : pyMin 1 (c + 1/10) ≤ 1 := by
  unfold pyMin; split
  next => linarith
  next h => linarith [not_le.mp h]

/-- C10. `update_preference` never decreases the stored confidence of a
topic: reinforcing an existing preference sets it to
`min(1.0, confidence + 0.1)` (so it grows by the fixed 0.1 increment and is
clamped at 1.0), creating one sets it to 0.5, and even the partial-mutation
path taken when the examples argument is malformed leaves it unchanged;
consequently under any number of calls the confidence is monotonically
non-decreasing and never exceeds 1.0. -/
theorem preference_confidence_monotone (st : LearnState)
    (topic instruction examples source : JValue) (now : String)
    (hle : (lookupJ st.preferences topic).all
      (fun p => decide (p.confidence ≤ 1)) = true) :
    (∀ p, lookupJ st.preferences topic = some p →
       ∃ p', lookupJ ((updatePreference st topic instruction examples source
           now).1).preferences topic = some p' ∧
         p.confidence ≤ p'.confidence ∧ p'.confidence ≤ 1) ∧
    (lookupJ st.preferences topic = none → unhashable topic = false →
       ∃ p', lookupJ ((updatePreference st topic instruction examples source
           now).1).preferences topic = some p' ∧ p'.confidence = 1/2) ∧
    (∀ p, lookupJ st.preferences topic = some p →
       (∀ e, (updatePreference st topic instruction examples source now).2 ≠
          .error e) →
       ∃ p', lookupJ ((updatePreference st topic instruction examples source
           now).1).preferences topic = some p' ∧
         p'.confidence = pyMin 1 (p.confidence + 1/10)) := by
  by_cases hu : unhashable topic
  · -- the lookup raises before any mutation: the state is unchanged
    refine ⟨?_, ?_, ?_⟩
    · intro p hp
      refine ⟨p, ?_, le_refl _, ?_⟩
      · simpa [updatePreference, hu] using hp
      · have := hle
        rw [hp] at this
        simpa using this
    · intro _ hfalse
      rw [hu] at hfalse
      cases hfalse
    · intro p hp hok
      exfalso
      exact hok (.typeError "unhashable type") (by simp [updatePreference, hu])
  · have hu' : unhashable topic = false := by simpa using hu
    cases hlook : lookupJ st.preferences topic with
    | none =>
        obtain ⟨p, r, heq, hconf⟩ := updatePreference_create_char st topic
          instruction examples source now hu' hlook
        refine ⟨?_, ?_, ?_⟩
        · intro p hp; exact absurd hp (by simp)
        · intro _ _
          rw [heq]
          exact ⟨p, lookupJ_setJ_self _ _ _, hconf⟩
        · intro p hp _; exact absurd hp (by simp)
    | some existing =>
        have hex : existing.confidence ≤ 1 := by
          rw [hlook] at hle; simpa using hle
        rcases updatePreference_reinforce_char st topic instruction examples
            source now hu' existing hlook with ⟨e, heq⟩ | ⟨exs, r, heq⟩
        · refine ⟨?_, ?_, ?_⟩
          · intro p hp
            injection hp with hpe
            subst hpe
            rw [heq]
            exact ⟨prefTouched existing instruction, lookupJ_setJ_self _ _ _,
              le_refl _, hex⟩
          · intro hn; exact absurd hn (by simp)
          · intro p hp hok
            exfalso
            exact hok e (by rw [heq])
        · refine ⟨?_, ?_, ?_⟩
          · intro p hp
            injection hp with hpe
            subst hpe
            rw [heq]
            exact ⟨prefReinforced existing instruction exs now,
              lookupJ_setJ_self _ _ _, pyMin_reinforce_ge _ hex,
              pyMin_reinforce_le_one _⟩
          · intro hn; exact absurd hn (by simp)
          · intro p hp _
            injection hp with hpe
            subst hpe
            rw [heq]
            exact ⟨prefReinforced existing instruction exs now,
              lookupJ_setJ_self _ _ _, rfl⟩

/-- A one-preference state for the reinforcement witness. -/
def prefWitnessState : LearnState :=
  { preferences := [((.str "Tone:Motion"),
      { topic := .str "Tone:Motion", instruction := .str "be aggressive",
        examples := .arr [], source := .str "agent_learned",
        confidence := 1/2, createdAt := "t0", lastUsed := none, useCount := 0 })],
    workflows := [], behaviors := [], observations := [], savedObservations := [] }

/-- Witness for `preference_confidence_monotone`: reinforcing the stored
`Tone:Motion` preference (confidence 0.5) yields confidence
`min 1 (0.5 + 0.1) = 0.6`. -/
theorem preference_confidence_monotone_witness :
    ((lookupJ prefWitnessState.preferences (.str "Tone:Motion")).all
      (fun p => decide (p.confidence ≤ 1)) = true) ∧
    ∃ p', lookupJ ((updatePreference prefWitnessState (.str "Tone:Motion")
        (.str "be more aggressive") (.arr []) (.str "agent_learned")
        "t1").1).preferences (.str "Tone:Motion") = some p' ∧
      p'.confidence = pyMin 1 (1/2 + 1/10) := by
  have hle : ((lookupJ prefWitnessState.preferences (.str "Tone:Motion")).all
      (fun p => decide (p.confidence ≤ 1)) = true) := by
    norm_num [prefWitnessState, lookupJ]
  refine ⟨hle, ?_⟩
  have h := (preference_confidence_monotone prefWitnessState
    (.str "Tone:Motion") (.str "be more aggressive") (.arr [])
    (.str "agent_learned") "t1" hle).2.2
    { topic := .str "Tone:Motion", instruction := .str "be aggressive",
      examples := .arr [], source := .str "agent_learned",
      confidence := 1/2, createdAt := "t0", lastUsed := none, useCount := 0 }
    (by simp [prefWitnessState, lookupJ])
    (by intro e he; simp [updatePreference, prefWitnessState, unhashable,
      lookupJ, pyTruthy] at he)
  simpa using h

/-- The argument bundle of one `record_observation` call. -/
structure ObsArgs where
  taskDescription : JValue
  actionsTaken : JValue
  outcome : JValue
  matterId : JValue
  matterType : JValue
  timeTaken : ℚ
  lessons : JValue
  now : String
  deriving Repr, DecidableEq

/-- The state reached after one `record_observation` call (the result dict
or exception is discarded; state mutations made before a raise are kept). -/
def applyObs (st : LearnState) (a : ObsArgs) : LearnState :=
  (recordObservation st a.taskDescription a.actionsTaken a.outcome a.matterId
    a.matterType a.timeTaken a.lessons a.now).1

def ObsArgs.toRecord (a : ObsArgs) : ObservationRecord :=
  mkObservation a.taskDescription a.actionsTaken a.outcome a.matterId
    a.matterType a.timeTaken a.lessons a.now

theorem recordWorkflow_observations (st : LearnState)
    (taskType actionSequence : JValue) (success : Bool) (matterType : JValue)
    (timeTaken : ℚ) (notes : JValue) (now : String) :
    ((recordWorkflow st taskType actionSequence success matterType timeTaken
        notes now).1).observations = st.observations ∧
    ((recordWorkflow st taskType actionSequence success matterType timeTaken
        notes now).1).savedObservations = st.savedObservations := by
  simp [recordWorkflow]

theorem observationReturn_fst (stF : LearnState) (outcome lessons : JValue) :
    (observationReturn stF outcome lessons).1 = stF := by
  unfold observationReturn; split <;> rfl

theorem applyObs_observations (st : LearnState) (a : ObsArgs) :
    (applyObs st a).observations = st.observations ++ [a.toRecord] ∧
    (applyObs st a).savedObservations =
      lastN 500 (st.observations ++ [a.toRecord]) := by
  have hwf := fun (st' : LearnState) (tt : String) =>
    recordWorkflow_observations st' (.str tt) a.actionsTaken true a.matterType
      a.timeTaken (.str "") a.now
  unfold applyObs recordObservation
  dsimp only
  split
  · split
    · constructor <;> simp [ObsArgs.toRecord]
    · rw [observationReturn_fst]
      constructor <;> simp [ObsArgs.toRecord]
    · rw [observationReturn_fst]
      constructor
      · rw [(hwf _ _).1]; simp [ObsArgs.toRecord]
      · rw [(hwf _ _).2]; simp [ObsArgs.toRecord]
  · rw [observationReturn_fst]
    constructor <;> simp [ObsArgs.toRecord]

/-- C9. The persisted observation store (`observations.json`, written by
`_save_observations` on every `record_observation`) always holds the at
most 500 most recent records, oldest evicted first: after any non-empty
sequence of insertions it equals the last-500 slice of the full
chronological record list, so its length never exceeds 500 and it is a
suffix of the history. -/
theorem observation_store_capped (st0 : LearnState) (inserts : List ObsArgs)
    (hne : inserts ≠ []) :
    (inserts.foldl applyObs st0).observations =
      st0.observations ++ inserts.map ObsArgs.toRecord ∧
    (inserts.foldl applyObs st0).savedObservations =
      lastN 500 ((inserts.foldl applyObs st0).observations) ∧
    (inserts.foldl applyObs st0).savedObservations.length ≤ 500 ∧
    ∃ pre, pre ++ (inserts.foldl applyObs st0).savedObservations =
      (inserts.foldl applyObs st0).observations := by
  have main : ∀ (l : List ObsArgs) (st : LearnState), l ≠ [] →
      (l.foldl applyObs st).observations =
        st.observations ++ l.map ObsArgs.toRecord ∧
      (l.foldl applyObs st).savedObservations =
        lastN 500 ((l.foldl applyObs st).observations) := by
    intro l
    induction l with
    | nil => intro _ h; cases h rfl
    | cons a rest ih =>
        intro st _
        cases hr : rest with
        | nil =>
            subst hr
            simp only [List.foldl, List.map]
            exact ⟨(applyObs_observations st a).1,
              by rw [(applyObs_observations st a).2,
                (applyObs_observations st a).1]⟩
        | cons b bs =>
            have hne' : rest ≠ [] := by rw [hr]; simp
            rw [← hr]
            simp only [List.foldl]
            have h1 := applyObs_observations st a
            obtain ⟨ho, _⟩ := ih (applyObs st a) hne'
            constructor
            · rw [ho, h1.1]; simp
            · exact (ih (applyObs st a) hne').2
  obtain ⟨h1, h2⟩ := main inserts st0 hne
  refine ⟨h1, h2, ?_, ?_⟩
  · rw [h2, lastN_length]; omega
  · rw [h2]; exact lastN_suffix _ _

/-- An empty learning state. -/
def emptyLearnState : LearnState :=
  { preferences := [], workflows := [], behaviors := [], observations := [],
    savedObservations := [] }

/-- Witness for `observation_store_capped`: one concrete insertion. -/
theorem observation_store_capped_witness :
    ([⟨.str "summarize document notes", .arr [.str "read_file"], .str "partial",
        .null, .null, 0, .arr [], "t0"⟩] : List ObsArgs) ≠ [] ∧
    ((([⟨.str "summarize document notes", .arr [.str "read_file"], .str "partial",
        .null, .null, 0, .arr [], "t0"⟩] : List ObsArgs).foldl applyObs
          emptyLearnState).savedObservations.length ≤ 500) := by
  constructor
  · simp
  · exact (observation_store_capped emptyLearnState _ (by simp)).2.2.1

/-! ## IRAC phase tracking and the IRAC tool handlers
(`lawyer_brain.py` 85-93 and 602-746)

`IRACStep.content` holds `json.dumps(args)`; since the digest later applies
`json.loads` to it, the round-tripped parsed value is stored directly.
Handlers return the updated phase map together with the result dict or the
exception raised part-way (mutations made before a raise are kept). -/

structure IRACStep where
  phase : String
  content : JValue
  completed : Bool := false
  critiquePassed : Bool := false
  refinementNeeded : Bool := false
  refinementNotes : String := ""
  deriving Repr, DecidableEq

/-- The ordered phase map `self.irac_analysis`. -/
abbrev IracMap := List (String × IRACStep)

/-- `value.get(key, default)` at a call site where the value is known to be
a dict (a preceding `.get` on it has already succeeded). -/
def jgetOf (v : JValue) (k : String) (d : JValue) : JValue :=
  match v with
  | .obj kvs => jget kvs k d
  | _ => d

/-- `SuperLawyerAgent._handle_identify_issue` (`lawyer_brain.py` 602-615).
The log line slices `args.get('issue_statement', '')[:100]`, which raises
on a non-dict argument object or a non-sliceable field — after the phase
slot has been written. -/
def handleIdentifyIssue (args : JValue) (irac : IracMap) :
    IracMap × Except PyExc JValue :=
  let irac' := dictSet irac "issue"
    { phase := "issue", content := args, completed := true }
  match pyDictGetD args "issue_statement" (.str "") with
  | .error e => (irac', .error e)
  | .ok v =>
      match pySliceTo 100 v with
      | .error e => (irac', .error e)
      | .ok _ =>
          (irac', .ok (.obj [("success", .bool true), ("phase", .str "issue"),
            ("recorded", .bool true),
            ("next_step", .str "Now state the legal rule with citations using state_legal_rule")]))

/-- `SuperLawyerAgent._handle_state_rule` (`lawyer_brain.py` 617-630); the
log line takes `len(args.get('primary_authority', []))`. -/
def handleStateRule (args : JValue) (irac : IracMap) :
    IracMap × Except PyExc JValue :=
  let irac' := dictSet irac "rule"
    { phase := "rule", content := args, completed := true }
  match pyDictGetD args "primary_authority" (.arr []) with
  | .error e => (irac', .error e)
  | .ok v =>
      match pyLen v with
      | .error e => (irac', .error e)
      | .ok _ =>
          (irac', .ok (.obj [("success", .bool true), ("phase", .str "rule"),
            ("recorded", .bool true),
            ("next_step", .str "Now apply the rule to facts using perform_legal_analysis")]))

/-- `SuperLawyerAgent._handle_analysis` (`lawyer_brain.py` 632-647). -/
def handleAnalysis (args : JValue) (irac : IracMap) :
    IracMap × Except PyExc JValue :=
  let irac' := dictSet irac "analysis"
    { phase := "analysis", content := args, completed := true }
  match pyDictGetD args "favorable_arguments" (.arr []) with
  | .error e => (irac', .error e)
  | .ok fav =>
      match pyLen fav with
      | .error e => (irac', .error e)
      | .ok _ =>
          match pyDictGetD args "counterarguments" (.arr []) with
          | .error e => (irac', .error e)
          | .ok counter =>
              match pyLen counter with
              | .error e => (irac', .error e)
              | .ok _ =>
                  (irac', .ok (.obj [("success", .bool true),
                    ("phase", .str "analysis"), ("recorded", .bool true),
                    ("next_step", .str "Now state your conclusion using state_conclusion")]))

/-- `SuperLawyerAgent._handle_conclusion` (`lawyer_brain.py` 649-662). -/
def handleConclusion (args : JValue) (irac : IracMap) :
    IracMap × Except PyExc JValue :=
  let irac' := dictSet irac "conclusion"
    { phase := "conclusion", content := args, completed := true }
  match pyDictGetD args "conclusion" (.str "") with
  | .error e => (irac', .error e)
  | .ok v =>
      match pySliceTo 100 v with
      | .error e => (irac', .error e)
      | .ok _ =>
          (irac', .ok (.obj [("success", .bool true),
            ("phase", .str "conclusion"), ("recorded", .bool true),
            ("next_step", .str "Now critique your work using self_critique before finalizing")]))

/-- The refine instruction of the `needs_work` branch. -/
def refineInstruction : String :=
  "Refine your work to address the weaknesses, then critique again"

/-- The finalize instruction of the passing branch. -/
def finalizeInstruction : String :=
  "Work product approved. Use finalize_work_product to save it."

/-- `SuperLawyerAgent._handle_critique` (`lawyer_brain.py` 664-696).
The arguments are read first (raising on a non-dict `args`); the phase slot
is then written, with `refinement_needed = grade == "needs_work" or
len(refinements) > 0` (short-circuit: `len` is only evaluated for
non-`needs_work` grades); the log line evaluates `len(weaknesses)`; and the
branch on the grade selects the result. -/
def handleCritique (args : JValue) (irac : IracMap) :
    IracMap × Except PyExc JValue :=
  match pyDictGetD args "overall_grade" (.str "needs_work") with
  | .error e => (irac, .error e)
  | .ok grade =>
  match pyDictGetD args "weaknesses_found" (.arr []) with
  | .error e => (irac, .error e)
  | .ok weaknesses =>
  match pyDictGetD args "refinements_needed" (.arr []) with
  | .error e => (irac, .error e)
  | .ok refinements =>
  let refinementNeeded : Except PyExc Bool :=
    if grade = .str "needs_work" then .ok true
    else
      match pyLen refinements with
      | .error e => .error e
      | .ok n => .ok (n > 0)
  match refinementNeeded with
  | .error e => (irac, .error e)
  | .ok rn =>
  let irac' := dictSet irac "critique"
    { phase := "critique", content := args, completed := true,
      critiquePassed := grade = .str "A" || grade = .str "B",
      refinementNeeded := rn }
  match pyLen weaknesses with
  | .error e => (irac', .error e)
  | .ok _ =>
  if grade = .str "needs_work" then
    (irac', .ok (.obj [("success", .bool true), ("phase", .str "critique"),
      ("grade", grade), ("needs_refinement", .bool true),
      ("refinements", refinements),
      ("next_step", .str refineInstruction)]))
  else
    (irac', .ok (.obj [("success", .bool true), ("phase", .str "critique"),
      ("grade", grade), ("needs_refinement", .bool false),
      ("next_step", .str finalizeInstruction)]))

/-- Python `title.replace(" ", "_")`. -/
def strReplaceSpace (s : String) : String :=
  String.mk (s.data.map (fun c => if c = ' ' then '_' else c))

/-- `SuperLawyerAgent._handle_finalize` (`lawyer_brain.py` 698-718).
`args.get("save_path", f"output/...")` evaluates its default eagerly, so a
non-string title raises even when a save path is supplied. -/
def handleFinalize (args : JValue) (fs : FSState) (root : List String) :
    FSState × Except PyExc JValue :=
  match pyDictGetD args "title" (.str "Untitled") with
  | .error e => (fs, .error e)
  | .ok title =>
  match pyDictGetD args "content" (.str "") with
  | .error e => (fs, .error e)
  | .ok content =>
  match pyDictGetD args "document_type" (.str "document") with
  | .error e => (fs, .error e)
  | .ok docType =>
  match title with
  | .str t =>
      let savePath := jgetOf args "save_path"
        (.str ("output/" ++ strReplaceSpace t ++ ".md"))
      let (result, fs') := writeFile fs root savePath content (.bool true)
      if pyTruthy (jgetOf result "success" .null) then
        match pyLen content with
        | .error e => (fs', .error e)
        | .ok n =>
            (fs', .ok (.obj [("success", .bool true), ("title", title),
              ("path", savePath), ("size", .num n), ("document_type", docType)]))
      else (fs', .ok result)
  | _ => (fs, .error (.attributeError "object has no attribute replace"))

/-- `SuperLawyerAgent._handle_task_complete` (`lawyer_brain.py` 720-746).
The `record_observation` call is wrapped in `try/except`, so its exceptions
are swallowed (any state it mutated before raising is kept). -/
def handleTaskComplete (args : JValue) (currentTask : String)
    (actions : List JValue) (irac : IracMap) (learn : LearnState)
    (elapsed : Int) (now : String) : LearnState × Except PyExc JValue :=
  match pyDictGetD args "success" (.bool true) with
  | .error e => (learn, .error e)
  | .ok success =>
  match pyDictGetD args "summary" (.str "") with
  | .error e => (learn, .error e)
  | .ok summary =>
  match pySliceTo 100 summary with
  | .error e => (learn, .error e)
  | .ok _ =>
  let lessons : JValue :=
    match jgetOf args "irac_summary" .null with
    | .obj kvs => jget kvs "lessons" (.arr [])
    | _ => .arr []
  let learn' := (recordObservation learn (.str currentTask) (.arr actions)
    (.str (if pyTruthy success then "success" else "partial")) .null .null
    (elapsed : ℚ) lessons now).1
  (learn', .ok (.obj [("success", .bool true), ("task_complete", .bool true),
    ("summary", summary),
    ("output_files", jgetOf args "output_files" (.arr [])),
    ("irac_phases_completed", .arr (irac.map (fun p => .str p.1)))]))

/-! ## The tool dispatcher (`SuperLawyerAgent._execute_tool`,
`lawyer_brain.py` 545-600)

Handlers living in out-of-scope modules are parameters of the environment:
the legal-knowledge executor and the retrieval executor may raise
(`Except`); the bridge executor (`ToolExecutor.execute`,
`bridge_tools.py` 149-189) catches every exception inside
`BackendAPIBridge._make_request` and always returns a result dict, so its
parameter type is total.  There is no `try/except` in `_execute_tool`
itself: whatever a handler raises propagates to the caller. -/

/-- The per-task mutable state of `SuperLawyerAgent` used by the loop. -/
structure AgentState where
  messages : List JValue
  irac : IracMap
  actions : List JValue
  iterationCount : Nat
  timeWarningsGiven : List String
  fs : FSState
  learn : LearnState
  currentTask : String
  deriving Repr, DecidableEq

/-- The dispatcher's collaborators and the model-call oracle.  `elapsed`
stands for `time.time() - self.start_time`, frozen, at integer-second
granularity (times are floats in the source; no claim depends on
sub-second values and wall-clock time is otherwise not modelled). -/
structure ToolEnv where
  fsEnv : FsEnv
  sandboxRoot : List String
  knowledge : JValue → JValue → Except PyExc JValue
  retrieval : JValue → JValue → Except PyExc JValue
  bridge : JValue → JValue → JValue
  oracle : Nat → Except String JValue
  now : String
  elapsed : Int

/-- The filesystem tool names accepted by the dispatch guard. -/
def fsToolNamesJ : List JValue :=
  [.str "list_directory", .str "list_directory_recursive", .str "read_file",
   .str "write_file", .str "file_exists", .str "create_directory"]

/-- The learning tool names accepted by the dispatch guard. -/
def learningToolNamesJ : List JValue :=
  [.str "update_preference", .str "get_style_preferences",
   .str "record_workflow_success", .str "get_recommended_workflow",
   .str "record_observation", .str "get_user_typical_action",
   .str "record_user_behavior"]

/-- The legal-knowledge tool names accepted by the dispatch guard. -/
def knowledgeToolNamesJ : List JValue :=
  [.str "get_practice_area_knowledge", .str "get_legal_procedure",
   .str "get_intake_checklist"]

/-- `[tool.name for tool in RETRIEVAL_TOOLS]` (`retrieval_tools.py` 507-560). -/
def retrievalToolNamesJ : List JValue :=
  [.str "search_semantic", .str "search_hybrid", .str "find_precedent",
   .str "find_similar_clauses", .str "track_retrieval_feedback"]

/-- `SuperLawyerAgent._execute_tool` (`lawyer_brain.py` 545-600): record
the tool name in the actions ledger, then route by name; unknown names
fall through to the bridge executor. -/
def executeTool (env : ToolEnv) (toolName args : JValue) (st : AgentState) :
    AgentState × Except PyExc JValue :=
  let st := { st with actions := st.actions ++ [toolName] }
  if fsToolNamesJ.contains toolName then
    match args with
    | .obj kvs =>
        let (r, fs') := executeFilesystemTool env.fsEnv env.sandboxRoot
          toolName kvs st.fs
        ({ st with fs := fs' }, .ok r)
    | _ => (st, .error (.attributeError "object has no attribute get"))
  else if learningToolNamesJ.contains toolName then
    let (learn', r) := executeLearningTool toolName args st.learn env.now
    ({ st with learn := learn' }, r)
  else if knowledgeToolNamesJ.contains toolName then
    (st, env.knowledge toolName args)
  else if toolName = .str "identify_legal_issue" then
    let (irac', r) := handleIdentifyIssue args st.irac
    ({ st with irac := irac' }, r)
  else if toolName = .str "state_legal_rule" then
    let (irac', r) := handleStateRule args st.irac
    ({ st with irac := irac' }, r)
  else if toolName = .str "perform_legal_analysis" then
    let (irac', r) := handleAnalysis args st.irac
    ({ st with irac := irac' }, r)
  else if toolName = .str "state_conclusion" then
    let (irac', r) := handleConclusion args st.irac
    ({ st with irac := irac' }, r)
  else if toolName = .str "self_critique" then
    let (irac', r) := handleCritique args st.irac
    ({ st with irac := irac' }, r)
  else if toolName = .str "finalize_work_product" then
    let (fs', r) := handleFinalize args st.fs env.sandboxRoot
    ({ st with fs := fs' }, r)
  else if toolName = .str "task_complete" then
    let (learn', r) := handleTaskComplete args st.currentTask st.actions
      st.irac st.learn env.elapsed env.now
    ({ st with learn := learn' }, r)
  else if retrievalToolNamesJ.contains toolName then
    (st, env.retrieval toolName args)
  else
    (st, .ok (env.bridge toolName args))

/-! ## Conversation compaction (`SuperLawyerAgent._compact_messages`,
`lawyer_brain.py` 940-992) -/

/-- Python `s.upper()`. -/
def strUpper (s : String) : String :=
  String.mk (s.data.map Char.toUpper)

/-- One line of the IRAC digest, from one phase slot.  `json.loads` of the
stored dump is the stored value; a non-dict payload falls to the
`except (JSONDecodeError, AttributeError)` fallback line, while a
non-sliceable field raises a `TypeError` which is *not* caught there. -/
def digestLine (phase : String) (step : IRACStep) :
    Except PyExc (Option String) :=
  match step.content with
  | .obj kvs =>
      if phase = "issue" then
        match pySliceTo 200 (jget kvs "issue_statement" (.str "")) with
        | .error e => .error e
        | .ok v => .ok (some ("ISSUE: " ++ pyStr v))
      else if phase = "rule" then
        match pySliceTo 150 (jget kvs "rule_statement" (.str "")) with
        | .error e => .error e
        | .ok v =>
            match pySliceTo 3 (jget kvs "primary_authority" (.arr [])) with
            | .error e => .error e
            | .ok auths =>
                match pyJoin "; " auths with
                | .error e => .error e
                | .ok joined =>
                    .ok (some ("RULE: " ++ pyStr v ++ ". Authorities: " ++ joined))
      else if phase = "analysis" then
        match pySliceTo 200 (jget kvs "analysis" (.str "")) with
        | .error e => .error e
        | .ok v => .ok (some ("ANALYSIS: " ++ pyStr v))
      else if phase = "conclusion" then
        match pySliceTo 150 (jget kvs "conclusion" (.str "")) with
        | .error e => .error e
        | .ok v => .ok (some ("CONCLUSION: " ++ pyStr v))
      else if phase = "critique" then
        .ok (some ("CRITIQUE: Grade=" ++ pyStr (jget kvs "overall_grade" (.str "?"))))
      else
        -- a phase key outside the five named ones appends nothing
        .ok none
  | _ => .ok (some (strUpper phase ++ ": completed"))

/-- The digest lines of every recorded phase, in insertion order. -/
def digestLines : IracMap → Except PyExc (List String)
  | [] => .ok []
  | (phase, step) :: rest =>
      match digestLine phase step with
      | .error e => .error e
      | .ok none =>
          digestLines rest
      | .ok (some line) =>
          match digestLines rest with
          | .error e => .error e
          | .ok lines => .ok (line :: lines)

/-- The synthesized context-summary message.  It is a function only of the
recorded IRAC phases, the actions ledger, the iteration count, the elapsed
time and the pre-compaction message count — never of prior digest text.
(`f"{elapsed:.0f}"` is rendered via the floor; the exact numeral formatting
is irrelevant to every claim.) -/
def digestMessage (irac : IracMap) (actions : List JValue)
    (iterationCount : Nat) (elapsed : Int) (messageCount : Nat) :
    Except PyExc JValue :=
  match digestLines irac with
  | .error e => .error e
  | .ok summaries =>
      let iracText :=
        if summaries = [] then "No IRAC phases completed yet."
        else String.intercalate "\n" summaries
      match (if actions ≠ [] then
          (pyJoinStrs ", " (lastN 15 actions)).map
            (fun s => "Actions taken: " ++ s)
        else .ok "" : Except PyExc String) with
      | .error e => .error e
      | .ok actionsText =>
          .ok (.obj [("role", .str "system"),
            ("content", .str ("[CONTEXT SUMMARY - " ++
              toString (messageCount - 30) ++ " earlier messages compacted]\n" ++
              "Iteration: " ++ toString iterationCount ++ " | Elapsed: " ++
              toString elapsed ++ "s\n" ++ iracText ++ "\n" ++
              actionsText ++ "\nContinue from where you left off. Use task_complete when done."))])

/-- `SuperLawyerAgent._compact_messages` (`lawyer_brain.py` 940-992):
below 41 messages it does nothing; otherwise it rebuilds the conversation
as `[system, first user message, digest] ++ last 30 raw messages`.  The
assignment to `self.messages` happens only at the very end, so a raise
while building the digest leaves the conversation untouched. -/
def compactMessages (st : AgentState) (elapsed : Int) :
    Except PyExc AgentState :=
  if st.messages.length ≤ 40 then .ok st
  else
    let systemMsg := st.messages.getD 0 .null
    let firstUser := st.messages.getD 1 .null
    match digestMessage st.irac st.actions st.iterationCount elapsed
        st.messages.length with
    | .error e => .error e
    | .ok summary =>
        .ok { st with messages :=
          [systemMsg, firstUser, summary] ++ lastN 30 st.messages }

/-! ## The agent control loop (`SuperLawyerAgent.run`, `lawyer_brain.py`
786-938)

The loop is embedded from the body of the `try` block (lines 837-929),
with `max_iterations`, `max_runtime` and the initial conversation as
parameters.  (The budget-selection code that precedes the loop, lines
513-520 and 826-835, reads `config.fast_task_max_runtime` and
`config.fast_task_max_iterations`, attributes that `AgentConfig` in
`config.py` does not define; no claim concerns those lines.)  One model
response is an oracle value per iteration; `tool_call["function"]
["arguments"]` is modelled as the already-parsed JSON value (the
`json.loads` fallback to `{}` on a decode error is the default value). -/

/-- `SuperLawyerAgent._check_time_warnings` (`lawyer_brain.py` 522-543). -/
def checkTimeWarnings (st : AgentState) (elapsed budget : Int) :
    AgentState × Bool :=
  let remaining := budget - elapsed
  if remaining < 60 && !(st.timeWarningsGiven.contains "critical") then
    ({ st with timeWarningsGiven := st.timeWarningsGiven ++ ["critical"] }, false)
  else if remaining < 300 && !(st.timeWarningsGiven.contains "warning") then
    ({ st with timeWarningsGiven := st.timeWarningsGiven ++ ["warning"] }, true)
  else if remaining < 600 && !(st.timeWarningsGiven.contains "notice") then
    ({ st with timeWarningsGiven := st.timeWarningsGiven ++ ["notice"] }, true)
  else (st, true)

/-- What one pass of the `while` body decides. -/
inductive IterOutcome where
  | next
  | breakLoop
  | complete (result : JValue)
  | raised (e : PyExc)
  deriving Repr, DecidableEq

/-- The tool-role message appended for one executed call. -/
def toolMessage (toolCall result : JValue) : JValue :=
  .obj [("role", .str "tool"), ("tool_call_id", jgetOf toolCall "id" (.str "")),
        ("content", result)]

/-- The user message appended after a text-only assistant turn. -/
def nudgeMessage : JValue :=
  .obj [("role", .str "user"),
        ("content", .str "Use the IRAC tools to complete this task. Call the appropriate tool now.")]

/-- The result returned when `task_complete` is dispatched
(`lawyer_brain.py` 895-906). -/
def taskCompleteReturn (result : JValue) (st : AgentState) (elapsed : Int) :
    JValue :=
  .obj [("success", jgetOf result "success" (.bool true)),
        ("summary", jgetOf result "summary" (.str "")),
        ("output_files", jgetOf result "output_files" (.arr [])),
        ("irac_analysis", .obj (st.irac.map (fun p => (p.1, p.2.content)))),
        ("iterations", .num st.iterationCount),
        ("elapsed_seconds", .num (elapsed : ℚ))]

/-- The `for tool_call in tool_calls` loop (`lawyer_brain.py` 877-906):
strictly sequential; each call's result message is appended before the next
call is dispatched; `task_complete` returns from `run` at once (remaining
calls are not executed); a raise aborts the loop with the messages
appended so far. -/
def processToolCalls (env : ToolEnv) :
    List JValue → AgentState → AgentState × Option (PyExc ⊕ JValue)
  | [], st => (st, none)
  | toolCall :: rest, st =>
      match pyDictGetD toolCall "function" (.obj []) with
      | .error e => (st, some (.inl e))
      | .ok fn =>
      match pyDictGetD fn "name" (.str "") with
      | .error e => (st, some (.inl e))
      | .ok toolName =>
      match pyDictGetD fn "arguments" (.obj []) with
      | .error e => (st, some (.inl e))
      | .ok toolArgs =>
      match executeTool env toolName toolArgs st with
      | (st, .error e) => (st, some (.inl e))
      | (st, .ok result) =>
          let st := { st with messages := st.messages ++ [toolMessage toolCall result] }
          if toolName = .str "task_complete" then
            (st, some (.inr (taskCompleteReturn result st env.elapsed)))
          else
            processToolCalls env rest st

/-- End-of-iteration compaction check (`lawyer_brain.py` 915-917). -/
def afterIteration (st : AgentState) (elapsed : Int) :
    AgentState × IterOutcome :=
  if st.messages.length > 45 then
    match compactMessages st elapsed with
    | .error e => (st, .raised e)
    | .ok st' => (st', .next)
  else (st, .next)

/-- One pass of the `while` body (`lawyer_brain.py` 838-917). -/
def runIter (env : ToolEnv) (maxRuntime : Int) (st : AgentState) :
    AgentState × IterOutcome :=
  let elapsed := env.elapsed
  match checkTimeWarnings st elapsed maxRuntime with
  | (st, false) => (st, .breakLoop)
  | (st, true) =>
  if elapsed ≥ maxRuntime then (st, .breakLoop)
  else
  let st := { st with iterationCount := st.iterationCount + 1 }
  match env.oracle st.iterationCount with
  | .error _ => (st, .next)   -- API error: log, sleep 5, continue
  | .ok response =>
  match pyDictGetD response "choices" (.arr [.obj []]) with
  | .error e => (st, .raised e)
  | .ok choices =>
  match pySubscriptZero choices with
  | .error e => (st, .raised e)
  | .ok choice =>
  match pyDictGetD choice "message" (.obj []) with
  | .error e => (st, .raised e)
  | .ok message =>
  let st := { st with messages := st.messages ++ [message] }
  match pyDictGetD message "tool_calls" (.arr []) with
  | .error e => (st, .raised e)
  | .ok toolCalls =>
  if pyTruthy toolCalls then
    match pyIterate toolCalls with
    | .error e => (st, .raised e)
    | .ok calls =>
        match processToolCalls env calls st with
        | (st, some (.inl e)) => (st, .raised e)
        | (st, some (.inr result)) => (st, .complete result)
        | (st, none) => afterIteration st elapsed
  else
    match pyDictGet message "content" with
    | .error e => (st, .raised e)
    | .ok content =>
        let st :=
          if pyTruthy content then
            { st with messages := st.messages ++ [nudgeMessage] }
          else st
        afterIteration st elapsed

/-- The result returned when the loop exits without `task_complete`
(`lawyer_brain.py` 919-929, reached both on budget exhaustion and on the
time-critical break). -/
def maxIterationsResult (st : AgentState) (elapsed : Int) : JValue :=
  .obj [("success", .bool false), ("error", .str "Max iterations reached"),
        ("irac_analysis", .obj (st.irac.map (fun p => (p.1, p.2.content)))),
        ("iterations", .num st.iterationCount),
        ("elapsed_seconds", .num (elapsed : ℚ))]

/-- The `while self.iteration_count < max_iterations` loop.  The fuel is an
upper bound on the remaining passes; every `next` outcome has incremented
the iteration counter, so `maxIter` fuel always suffices from a fresh
state. -/
def runLoop (env : ToolEnv) (maxIter : Nat) (maxRuntime : Int) :
    Nat → AgentState → AgentState × Except PyExc JValue
  | 0, st => (st, .ok (maxIterationsResult st env.elapsed))
  | fuel + 1, st =>
      if st.iterationCount < maxIter then
        match runIter env maxRuntime st with
        | (st', .next) => runLoop env maxIter maxRuntime fuel st'
        | (st', .breakLoop) => (st', .ok (maxIterationsResult st' env.elapsed))
        | (st', .complete r) => (st', .ok r)
        | (st', .raised e) => (st', .error e)
      else (st, .ok (maxIterationsResult st env.elapsed))

/-- The `try/except` around the loop (`lawyer_brain.py` 837-938): any
exception escaping an iteration is converted into a failed task result. -/
def runFromState (env : ToolEnv) (maxIter : Nat) (maxRuntime : Int)
    (st : AgentState) : JValue :=
  match runLoop env maxIter maxRuntime maxIter st with
  | (_, .ok r) => r
  | (stE, .error e) =>
      .obj [("success", .bool false), ("error", .str e.message),
            ("iterations", .num stE.iterationCount),
            ("elapsed_seconds", .num (env.elapsed : ℚ))]

/-! ## Theorems about the control loop -/

/-- The state at the top of `run` (`lawyer_brain.py` 796-801), with the
initial conversation abstracted (its content is never read by the loop). -/
def initialAgentState (task : String) : AgentState :=
  { messages := [], irac := [], actions := [], iterationCount := 0,
    timeWarningsGiven := [], fs := ⟨[]⟩, learn := emptyLearnState,
    currentTask := task }

/-- An assistant tool call of `task_complete`. -/
def completeCall : JValue :=
  .obj [("id", .str "call_1"), ("type", .str "function"),
        ("function", .obj [("name", .str "task_complete"),
          ("arguments", .obj [("summary", .str "done"), ("success", .bool true)])])]

/-- A model response whose message carries the single `task_complete` call. -/
def completeResponse : JValue :=
  .obj [("choices", .arr [ .obj [("message", .obj [
    ("role", .str "assistant"), ("content", .null),
    ("tool_calls", .arr [completeCall])])]])]

/-- An environment whose model call raises non-transiently (the helper
exhausted to `RuntimeError`) at iteration 1 and returns the completing
response at every later iteration. -/
def failThenCompleteEnv : ToolEnv :=
  { fsEnv := ⟨fun _ => none, fun _ => none, fun _ => none⟩,
    sandboxRoot := ["home", "lawyer", "case_data"],
    knowledge := fun _ _ => .ok (.obj []),
    retrieval := fun _ _ => .error (.typeError "unexpected keyword argument"),
    bridge := fun _ _ => .obj [("error", .str "Backend unavailable")],
    oracle := fun i =>
      if i = 1 then .error "RuntimeError: Azure OpenAI API error 401: unauthorized"
      else .ok completeResponse,
    now := "t0", elapsed := 0 }

/-- C2 counterexample.  At iteration 1 the model-call helper raises
non-transiently, yet `run` does not return a failed result for the task:
the loop continues, and when iteration 2 completes normally the run
returns a *successful* result after two iterations — refuting the claim
that a non-transient model-call failure is propagated as a task failure
instead of continuing with further iterations. -/
theorem model_failure_propagation_counterexample :
    failThenCompleteEnv.oracle 1 =
      .error "RuntimeError: Azure OpenAI API error 401: unauthorized" ∧
    jgetOf (runFromState failThenCompleteEnv 5 1800 (initialAgentState "hello"))
      "success" .null = .bool true ∧
    jgetOf (runFromState failThenCompleteEnv 5 1800 (initialAgentState "hello"))
      "iterations" .null = .num 2 := by
  refine ⟨by decide, by decide, by decide⟩

/-- With at least ten minutes of budget left and no warning latched, the
time checks pass and leave the state unchanged. -/
theorem checkTimeWarnings_benign (st : AgentState) (elapsed budget : Int)
    (h : 600 ≤ budget - elapsed) :
    checkTimeWarnings st elapsed budget = (st, true) := by
  unfold checkTimeWarnings
  have h1 : ¬ (budget - elapsed < 60) := by omega
  have h2 : ¬ (budget - elapsed < 300) := by omega
  have h3 : ¬ (budget - elapsed < 600) := by omega
  simp [h1, h2, h3]

/-- C2 amended.  A model-call exception inside an iteration is caught,
logged, slept on and the loop *continues* with the next iteration (the
conversation unchanged, the iteration counter advanced by one); the
failure surfaces only through a later termination: when every call fails,
`run` returns the failed "Max iterations reached" result only after the
whole iteration budget is exhausted. -/
theorem model_failure_swallowed (env : ToolEnv) (maxRuntime : Int)
    (htime : 600 ≤ maxRuntime - env.elapsed) :
    (∀ st msg, env.oracle (st.iterationCount + 1) = .error msg →
      runIter env maxRuntime st =
        ({ st with iterationCount := st.iterationCount + 1 }, .next)) ∧
    (∀ maxIter st, (∀ i, ∃ msg, env.oracle i = .error msg) →
      st.iterationCount = 0 →
      runFromState env maxIter maxRuntime st =
        maxIterationsResult { st with iterationCount := maxIter } env.elapsed) := by
  have helapsed : ¬ (env.elapsed ≥ maxRuntime) := by omega
  constructor
  · intro st msg horacle
    unfold runIter
    simp only [checkTimeWarnings_benign st env.elapsed maxRuntime htime,
      helapsed, horacle, if_false]
  · intro maxIter st hall hzero
    have main : ∀ (fuel : Nat) (s : AgentState),
        s.iterationCount + fuel = maxIter →
        runLoop env maxIter maxRuntime fuel s =
          ({ s with iterationCount := maxIter },
           .ok (maxIterationsResult { s with iterationCount := maxIter }
             env.elapsed)) := by
      intro fuel
      induction fuel with
      | zero =>
          intro s hs
          simp only [Nat.add_zero] at hs
          subst hs
          rfl
      | succ fuel ih =>
          intro s hs
          have hlt : s.iterationCount < maxIter := by omega
          obtain ⟨msg, hmsg⟩ := hall (s.iterationCount + 1)
          unfold runLoop
          rw [if_pos hlt]
          unfold runIter
          simp only [checkTimeWarnings_benign s env.elapsed maxRuntime htime,
            helapsed, if_false, hmsg]
          have := ih { s with iterationCount := s.iterationCount + 1 }
            (by simp; omega)
          simpa using this
    unfold runFromState
    rw [main maxIter st (by omega)]

/-- An environment whose model call always raises. -/
def allFailEnv : ToolEnv :=
  { failThenCompleteEnv with
    oracle := fun _ => .error "RuntimeError: Max retries exceeded for Azure OpenAI API" }

/-- Witness for `model_failure_swallowed`: with a 30-minute budget and an
always-failing model, a 3-iteration run ends in the failed
max-iterations result. -/
theorem model_failure_swallowed_witness :
    (600 ≤ (1800 : Int) - allFailEnv.elapsed) ∧
    runFromState allFailEnv 3 1800 (initialAgentState "hello") =
      maxIterationsResult
        { initialAgentState "hello" with iterationCount := 3 }
        allFailEnv.elapsed := by
  refine ⟨by decide, ?_⟩
  exact (model_failure_swallowed allFailEnv 1800 (by decide)).2 3
    (initialAgentState "hello") (fun i => ⟨_, rfl⟩) rfl

set_option maxHeartbeats 1000000 in
/-- Every dispatch branch records exactly the tool name in the actions
ledger and leaves the conversation untouched (messages are appended by the
caller, not the dispatcher). -/
theorem executeTool_state_shape (env : ToolEnv) (n a : JValue) (s : AgentState) :
    ((executeTool env n a s).1).actions = s.actions ++ [n] ∧
    ((executeTool env n a s).1).messages = s.messages := by
  unfold executeTool
  dsimp only
  by_cases c1 : fsToolNamesJ.contains n = true
  · rw [if_pos c1]; cases a <;> exact ⟨rfl, rfl⟩
  · rw [if_neg c1]
    by_cases c2 : learningToolNamesJ.contains n = true
    · rw [if_pos c2]; exact ⟨rfl, rfl⟩
    · rw [if_neg c2]
      by_cases c3 : knowledgeToolNamesJ.contains n = true
      · rw [if_pos c3]; exact ⟨rfl, rfl⟩
      · rw [if_neg c3]
        by_cases c4 : n = JValue.str "identify_legal_issue"
        · rw [if_pos c4]; exact ⟨rfl, rfl⟩
        · rw [if_neg c4]
          by_cases c5 : n = JValue.str "state_legal_rule"
          · rw [if_pos c5]; exact ⟨rfl, rfl⟩
          · rw [if_neg c5]
            by_cases c6 : n = JValue.str "perform_legal_analysis"
            · rw [if_pos c6]; exact ⟨rfl, rfl⟩
            · rw [if_neg c6]
              by_cases c7 : n = JValue.str "state_conclusion"
              · rw [if_pos c7]; exact ⟨rfl, rfl⟩
              · rw [if_neg c7]
                by_cases c8 : n = JValue.str "self_critique"
                · rw [if_pos c8]; exact ⟨rfl, rfl⟩
                · rw [if_neg c8]
                  by_cases c9 : n = JValue.str "finalize_work_product"
                  · rw [if_pos c9]; exact ⟨rfl, rfl⟩
                  · rw [if_neg c9]
                    by_cases c10 : n = JValue.str "task_complete"
                    · rw [if_pos c10]; exact ⟨rfl, rfl⟩
                    · rw [if_neg c10]
                      by_cases c11 : retrievalToolNamesJ.contains n = true
                      · rw [if_pos c11]; exact ⟨rfl, rfl⟩
                      · rw [if_neg c11]; exact ⟨rfl, rfl⟩

set_option linter.unnecessarySeqFocus false in
theorem jgetOf_of_pyDictGetD (v : JValue) (k : String) (d x : JValue)
    (h : pyDictGetD v k d = .ok x) : jgetOf v k d = x := by
  cases v <;> simp [pyDictGetD] at h <;> simp [jgetOf, h]

/-- The function name recorded for a call object. -/
def callFunctionName (c : JValue) : JValue :=
  jgetOf (jgetOf c "function" (.obj [])) "name" (.str "")

/-- All the calls of one assistant turn parse and execute without raising,
and none is `task_complete` (the hypothesis of the ordering guarantee). -/
def callsWellFormed (env : ToolEnv) : List JValue → AgentState → Prop
  | [], _ => True
  | c :: rest, st => ∃ fn name args r st',
      pyDictGetD c "function" (.obj []) = .ok fn ∧
      pyDictGetD fn "name" (.str "") = .ok name ∧
      pyDictGetD fn "arguments" (.obj []) = .ok args ∧
      name ≠ .str "task_complete" ∧
      executeTool env name args st = (st', .ok r) ∧
      callsWellFormed env rest
        { st' with messages := st'.messages ++ [toolMessage c r] }

/-- C6 amended.  Tool calls of one assistant turn are executed strictly
sequentially in emission order: provided every call parses and its handler
returns (rather than raising) and none is `task_complete`, the loop
appends exactly one tool-role message per call — `toolMessage c r`, which
carries that call's `id` — in call order, and the actions ledger gains the
calls' function names in the same order; end-of-iteration compaction, when
it fires, keeps the most recent 30 raw messages, so the appended tool
messages of a turn of at most 30 calls survive it as a suffix.  (When a
handler raises instead, the remaining calls are not executed and no tool
message is appended for them: see the counterexample.) -/
theorem tool_calls_sequential (env : ToolEnv) :
    (∀ calls st, callsWellFormed env calls st →
      ∃ results : List JValue,
        results.length = calls.length ∧
        (processToolCalls env calls st).2 = none ∧
        (processToolCalls env calls st).1.messages =
          st.messages ++ List.zipWith toolMessage calls results ∧
        (processToolCalls env calls st).1.actions =
          st.actions ++ calls.map callFunctionName) ∧
    (∀ (st : AgentState) (elapsed : Int) pre s st',
      st.messages = pre ++ s → s.length ≤ 30 →
      afterIteration st elapsed = (st', .next) →
      ∃ pre', st'.messages = pre' ++ s) := by
  constructor
  · intro calls
    induction calls with
    | nil =>
        intro st _
        exact ⟨[], rfl, rfl, by simp [processToolCalls], by simp [processToolCalls]⟩
    | cons c rest ih =>
        intro st hwf
        obtain ⟨fn, name, args, r, st', h1, h2, h3, hne, hexec, hrest⟩ := hwf
        obtain ⟨results, hlen, hnone, hmsgs, hacts⟩ := ih _ hrest
        have hshape := executeTool_state_shape env name args st
        rw [hexec] at hshape
        have hname : callFunctionName c = name := by
          unfold callFunctionName
          rw [jgetOf_of_pyDictGetD _ _ _ _ h1, jgetOf_of_pyDictGetD _ _ _ _ h2]
        have hstep : processToolCalls env (c :: rest) st =
            processToolCalls env rest
              { st' with messages := st'.messages ++ [toolMessage c r] } := by
          simp only [processToolCalls, h1, h2, h3, hexec]
          simp [hne]
        refine ⟨r :: results, by simp [hlen], ?_, ?_, ?_⟩
        · rw [hstep]; exact hnone
        · rw [hstep, hmsgs]
          simp only [List.zipWith]
          rw [hshape.2]
          simp
        · rw [hstep, hacts]
          simp only [List.map]
          rw [hshape.1, hname]
          simp
  · intro st elapsed pre s st' hmsg hslen hafter
    unfold afterIteration at hafter
    by_cases hlong : st.messages.length > 45
    · rw [if_pos hlong] at hafter
      cases hcomp : compactMessages st elapsed with
      | error e => rw [hcomp] at hafter; cases hafter
      | ok stc =>
          rw [hcomp] at hafter
          cases hafter
          have hle : ¬ (st.messages.length ≤ 40) := by omega
          unfold compactMessages at hcomp
          rw [if_neg hle] at hcomp
          cases hdig : digestMessage st.irac st.actions st.iterationCount
              elapsed st.messages.length with
          | error e => rw [hdig] at hcomp; cases hcomp
          | ok d =>
              rw [hdig] at hcomp
              cases hcomp
              obtain ⟨mid, hmid⟩ := lastN_append_of_le 30 pre s hslen
              refine ⟨[st.messages.getD 0 .null, st.messages.getD 1 .null, d] ++ mid, ?_⟩
              rw [hmsg, ← hmid]
              simp
    · rw [if_neg hlong] at hafter
      cases hafter
      exact ⟨pre, hmsg⟩

/-- A well-formed `identify_legal_issue` call with the given id. -/
def issueCall (id : String) : JValue :=
  .obj [("id", .str id), ("type", .str "function"),
        ("function", .obj [("name", .str "identify_legal_issue"),
          ("arguments", .obj [("issue_statement",
            .str "The issue is whether notice was served")])])]

/-- Witness for `tool_calls_sequential`: three well-formed calls execute
in order without an early return. -/
theorem tool_calls_sequential_witness :
    callsWellFormed failThenCompleteEnv
      [issueCall "call_a", issueCall "call_b", issueCall "call_c"]
      (initialAgentState "hello") ∧
    (processToolCalls failThenCompleteEnv
      [issueCall "call_a", issueCall "call_b", issueCall "call_c"]
      (initialAgentState "hello")).2 = none := by
  have hwf : callsWellFormed failThenCompleteEnv
      [issueCall "call_a", issueCall "call_b", issueCall "call_c"]
      (initialAgentState "hello") :=
    ⟨_, _, _, _, _, rfl, rfl, rfl, by decide, rfl,
      ⟨_, _, _, _, _, rfl, rfl, rfl, by decide, rfl,
        ⟨_, _, _, _, _, rfl, rfl, rfl, by decide, rfl, trivial⟩⟩⟩
  refine ⟨hwf, ?_⟩
  obtain ⟨results, _, hnone, _, _⟩ :=
    (tool_calls_sequential failThenCompleteEnv).1 _ _ hwf
  exact hnone

/-- A `self_critique` call whose `refinements_needed` argument is a number:
with a passing grade, `len(refinements)` raises `TypeError`. -/
def badCritiqueArgs : JValue :=
  .obj [("strength_assessment", .str "strong"), ("citation_check", .bool true),
        ("completeness_check", .bool true), ("overall_grade", .str "A"),
        ("refinements_needed", .num 5)]

def badCritiqueCall : JValue :=
  .obj [("id", .str "call_a"), ("type", .str "function"),
        ("function", .obj [("name", .str "self_critique"),
          ("arguments", badCritiqueArgs)])]

/-- A model response carrying three calls, the first of which raises. -/
def threeCallResponse : JValue :=
  .obj [("choices", .arr [ .obj [("message", .obj [
    ("role", .str "assistant"), ("content", .null),
    ("tool_calls", .arr [badCritiqueCall, issueCall "call_b",
      issueCall "call_c"])])]])]

def threeCallEnv : ToolEnv :=
  { failThenCompleteEnv with oracle := fun _ => .ok threeCallResponse }

/-- C6 counterexample.  An assistant message carries `tool_calls`
`[A, B, C]`, none of which is `task_complete`, yet after the iteration the
conversation contains zero tool-role messages, not three: handler `A`
(`self_critique` with a numeric `refinements_needed`) raises, the
remaining calls are never executed, and the task fails. -/
theorem tool_messages_counterexample :
    (runIter threeCallEnv 1800 (initialAgentState "hello")).2 =
      .raised (.typeError "object has no len") ∧
    ((runIter threeCallEnv 1800 (initialAgentState "hello")).1.messages.filter
      (fun m => jgetOf m "role" .null = .str "tool")).length = 0 ∧
    jgetOf (runFromState threeCallEnv 5 1800 (initialAgentState "hello"))
      "success" .null = .bool false := by
  refine ⟨by decide, by decide, by decide⟩

/-! ## Theorems about the critique handler (C1) -/

/-- A worst-tier self-critique argument object. -/
def needsWorkArgs : JValue :=
  .obj [("strength_assessment", .str "weak"), ("citation_check", .bool false),
        ("completeness_check", .bool false),
        ("overall_grade", .str "needs_work")]

/-- The phase map after `n` worst-tier critique recordings. -/
def iracAfterCritiques : Nat → IracMap
  | 0 => []
  | n + 1 => (handleCritique needsWorkArgs (iracAfterCritiques n)).1

/-- C1 counterexample.  After five worst-tier critique recordings — well
past any cap of about 3 — the sixth recording still returns the
refine-and-re-critique instruction with `needs_refinement = true`, not the
accept-and-finalize instruction: the handler keeps no attempt counter. -/
theorem critique_cap_counterexample :
    (handleCritique needsWorkArgs (iracAfterCritiques 5)).2 =
      .ok (.obj [("success", .bool true), ("phase", .str "critique"),
        ("grade", .str "needs_work"), ("needs_refinement", .bool true),
        ("refinements", .arr []),
        ("next_step", .str refineInstruction)]) ∧
    refineInstruction ≠ finalizeInstruction := by
  refine ⟨by decide, by decide⟩

/-- C1 amended.  `_handle_critique` is stateless with respect to attempts:
its returned result is independent of the recorded critique history, every
`needs_work` grade yields the refine-and-re-critique instruction (so an
endless `needs_work` sequence is advised to refine indefinitely; there is
no attempt cap), and every other supplied grade — in particular the
passing grades A and B — yields the finalize instruction. -/
theorem critique_no_attempt_cap (args : JValue) (irac : IracMap) :
    ((pyDictGetD args "overall_grade" (.str "needs_work") =
        .ok (.str "needs_work")) →
      ∀ r, (handleCritique args irac).2 = .ok r →
        jgetOf r "needs_refinement" .null = .bool true ∧
        jgetOf r "next_step" .null = .str refineInstruction) ∧
    (∀ g, pyDictGetD args "overall_grade" (.str "needs_work") = .ok g →
      g ≠ .str "needs_work" →
      ∀ r, (handleCritique args irac).2 = .ok r →
        jgetOf r "needs_refinement" .null = .bool false ∧
        jgetOf r "next_step" .null = .str finalizeInstruction) ∧
    (∀ irac₂, (handleCritique args irac₂).2 = (handleCritique args irac).2) := by
  cases hg : pyDictGetD args "overall_grade" (.str "needs_work") with
  | error e =>
      refine ⟨?_, ?_, ?_⟩
      · intro h; exact Except.noConfusion h
      · intro g h; exact Except.noConfusion h
      · intro irac₂; simp [handleCritique, hg]
  | ok grade =>
      cases hw : pyDictGetD args "weaknesses_found" (.arr []) with
      | error e =>
          refine ⟨?_, ?_, ?_⟩
          · intro _ r hres; simp [handleCritique, hg, hw] at hres
          · intro g _ _ r hres; simp [handleCritique, hg, hw] at hres
          · intro irac₂; simp [handleCritique, hg, hw]
      | ok weaknesses =>
          cases hr : pyDictGetD args "refinements_needed" (.arr []) with
          | error e =>
              refine ⟨?_, ?_, ?_⟩
              · intro _ r hres; simp [handleCritique, hg, hw, hr] at hres
              · intro g _ _ r hres; simp [handleCritique, hg, hw, hr] at hres
              · intro irac₂; simp [handleCritique, hg, hw, hr]
          | ok refinements =>
              by_cases hgw : grade = .str "needs_work"
              · cases hlw : pyLen weaknesses with
                | error e =>
                    refine ⟨?_, ?_, ?_⟩
                    · intro _ r hres
                      simp [handleCritique, hg, hw, hr, hgw, hlw] at hres
                    · intro g hgeq hne r hres
                      injection hgeq with h
                      subst h
                      exact absurd hgw hne
                    · intro irac₂
                      simp [handleCritique, hg, hw, hr, hgw, hlw]
                | ok k =>
                    refine ⟨?_, ?_, ?_⟩
                    · intro _ r hres
                      simp [handleCritique, hg, hw, hr, hgw, hlw] at hres
                      subst hres
                      exact ⟨rfl, rfl⟩
                    · intro g hgeq hne r hres
                      injection hgeq with h
                      subst h
                      exact absurd hgw hne
                    · intro irac₂
                      simp [handleCritique, hg, hw, hr, hgw, hlw]
              · cases hlr : pyLen refinements with
                | error e =>
                    refine ⟨?_, ?_, ?_⟩
                    · intro hgeq
                      injection hgeq with h
                      exact absurd h hgw
                    · intro g _ _ r hres
                      simp [handleCritique, hg, hw, hr, hgw, hlr] at hres
                    · intro irac₂
                      simp [handleCritique, hg, hw, hr, hgw, hlr]
                | ok nr =>
                    cases hlw : pyLen weaknesses with
                    | error e =>
                        refine ⟨?_, ?_, ?_⟩
                        · intro hgeq
                          injection hgeq with h
                          exact absurd h hgw
                        · intro g _ _ r hres
                          simp [handleCritique, hg, hw, hr, hgw, hlr, hlw] at hres
                        · intro irac₂
                          simp [handleCritique, hg, hw, hr, hgw, hlr, hlw]
                    | ok k =>
                        refine ⟨?_, ?_, ?_⟩
                        · intro hgeq
                          injection hgeq with h
                          exact absurd h hgw
                        · intro g hgeq hne r hres
                          simp [handleCritique, hg, hw, hr, hgw, hlr, hlw] at hres
                          subst hres
                          exact ⟨rfl, rfl⟩
                        · intro irac₂
                          simp [handleCritique, hg, hw, hr, hgw, hlr, hlw]

/-- A passing self-critique argument object. -/
def gradeBArgs : JValue :=
  .obj [("strength_assessment", .str "strong"), ("citation_check", .bool true),
        ("completeness_check", .bool true), ("overall_grade", .str "B")]

/-- The result of a worst-tier critique from an empty history. -/
def needsWorkResult : JValue :=
  match (handleCritique needsWorkArgs []).2 with
  | .ok r => r
  | .error _ => .null

/-- The result of a passing critique from an empty history. -/
def gradeBResult : JValue :=
  match (handleCritique gradeBArgs []).2 with
  | .ok r => r
  | .error _ => .null

/-- Witness for `critique_no_attempt_cap`: a `needs_work` critique yields
the refine instruction and a grade-B critique yields the finalize
instruction. -/
theorem critique_no_attempt_cap_witness :
    (pyDictGetD needsWorkArgs "overall_grade" (.str "needs_work") =
      .ok (.str "needs_work")) ∧
    jgetOf needsWorkResult "next_step" .null = .str refineInstruction ∧
    (pyDictGetD gradeBArgs "overall_grade" (.str "needs_work") =
      .ok (.str "B")) ∧
    jgetOf gradeBResult "next_step" .null = .str finalizeInstruction := by
  refine ⟨by decide, ?_, by decide, ?_⟩
  · exact ((critique_no_attempt_cap needsWorkArgs []).1 (by decide)
      needsWorkResult (by decide)).2
  · exact ((critique_no_attempt_cap gradeBArgs []).2.1 (.str "B") (by decide)
      (by decide) gradeBResult (by decide)).2

/-! ## Theorems about tool dispatch (C3) -/

/-- The seven IRAC-workflow tool names checked individually by the
dispatch chain. -/
def iracToolNamesJ : List JValue :=
  [.str "identify_legal_issue", .str "state_legal_rule",
   .str "perform_legal_analysis", .str "state_conclusion",
   .str "self_critique", .str "finalize_work_product", .str "task_complete"]

/-- C3 counterexample.  `_execute_tool` has no `try/except`: the
`TypeError` raised inside `_handle_critique` by `len()` on a numeric
`refinements_needed` propagates out of the dispatch unconverted, instead
of every handler error being returned as a result object. -/
theorem dispatch_exception_counterexample :
    (executeTool failThenCompleteEnv (.str "self_critique") badCritiqueArgs
      (initialAgentState "hello")).2 =
      .error (.typeError "object has no len") := by
  decide

/-- C3 amended.  `_execute_tool` is a transparent router: a handler
exception passes through unchanged (shown for `self_critique`), the
filesystem branch always yields a result object because its executor
catches its own exceptions, an unrecognized name falls through to the
bridge executor whose result is returned as-is, and the only conversion
of an exception into a failed-task object happens in `run`'s outer
`try/except`, after the exception has escaped the dispatch and the loop. -/
theorem dispatch_no_catch (env : ToolEnv) (args : JValue) (st : AgentState) :
    ((executeTool env (.str "self_critique") args st).2 =
       (handleCritique args st.irac).2) ∧
    (∀ name kvs, name ∈ fsToolNamesJ →
       ∃ r, (executeTool env name (.obj kvs) st).2 = .ok r) ∧
    (∀ name, name ∉ fsToolNamesJ → name ∉ learningToolNamesJ →
       name ∉ knowledgeToolNamesJ → name ∉ iracToolNamesJ →
       name ∉ retrievalToolNamesJ →
       (executeTool env name args st).2 = .ok (env.bridge name args)) ∧
    (∀ mi mr e stE st0,
       runLoop env mi mr mi st0 = (stE, .error e) →
       runFromState env mi mr st0 =
         .obj [("success", .bool false), ("error", .str e.message),
               ("iterations", .num stE.iterationCount),
               ("elapsed_seconds", .num (env.elapsed : ℚ))]) := by
  refine ⟨rfl, ?_, ?_, ?_⟩
  · intro name kvs hmem
    have hc : fsToolNamesJ.contains name = true := List.elem_iff.mpr hmem
    unfold executeTool
    dsimp only
    rw [if_pos hc]
    exact ⟨_, rfl⟩
  · intro name hfs hlearn hknow hirac hret
    have c1 : ¬(fsToolNamesJ.contains name = true) :=
      fun h => hfs (List.elem_iff.mp h)
    have c2 : ¬(learningToolNamesJ.contains name = true) :=
      fun h => hlearn (List.elem_iff.mp h)
    have c3 : ¬(knowledgeToolNamesJ.contains name = true) :=
      fun h => hknow (List.elem_iff.mp h)
    have c11 : ¬(retrievalToolNamesJ.contains name = true) :=
      fun h => hret (List.elem_iff.mp h)
    simp only [iracToolNamesJ, List.mem_cons, List.not_mem_nil, or_false,
      not_or] at hirac
    obtain ⟨h4, h5, h6, h7, h8, h9, h10⟩ := hirac
    unfold executeTool
    dsimp only
    rw [if_neg c1, if_neg c2, if_neg c3, if_neg h4, if_neg h5, if_neg h6,
        if_neg h7, if_neg h8, if_neg h9, if_neg h10, if_neg c11]
  · intro mi mr e stE st0 h
    unfold runFromState
    rw [h]

/-- The failed state produced by running the loop on the three-call
response. -/
def badRunState : AgentState :=
  (runLoop threeCallEnv 5 1800 5 (initialAgentState "hello")).1

/-- Witness for `dispatch_no_catch`: on the three-call response the loop
stops with the escaped `TypeError`, and `run`'s outer handler converts it
into the failed-task object. -/
theorem dispatch_no_catch_witness :
    (runLoop threeCallEnv 5 1800 5 (initialAgentState "hello") =
      (badRunState, .error (.typeError "object has no len"))) ∧
    runFromState threeCallEnv 5 1800 (initialAgentState "hello") =
      .obj [("success", .bool false), ("error", .str "object has no len"),
            ("iterations", .num badRunState.iterationCount),
            ("elapsed_seconds", .num (threeCallEnv.elapsed : ℚ))] := by
  have h : runLoop threeCallEnv 5 1800 5 (initialAgentState "hello") =
      (badRunState, .error (.typeError "object has no len")) := by decide
  refine ⟨h, ?_⟩
  exact (dispatch_no_catch threeCallEnv .null (initialAgentState "hello")).2.2.2
    5 1800 (.typeError "object has no len") badRunState
    (initialAgentState "hello") h

/-! ## Theorems about compaction (C5) -/

/-- C5.  When `_compact_messages` returns, it has either left the
conversation untouched (at 40 messages or fewer) or rebuilt it as
`[messages[0], messages[1], digest] ++ last 30 raw messages`, retaining
`messages[0]` and `messages[1]` verbatim; the recorded IRAC phases and the
action ledger — the digest is rebuilt from these, never from prior digest
text — are unchanged; and compacting the result again with no new
messages in between is the identity, so repeated compaction discards
nothing beyond what the first fixed-size digest already discarded. -/
theorem compaction_retention_idempotent (st st' : AgentState) (elapsed : Int)
    (h : compactMessages st elapsed = .ok st') :
    (st.messages.length ≤ 40 → st' = st) ∧
    (40 < st.messages.length →
      ∃ d, digestMessage st.irac st.actions st.iterationCount elapsed
          st.messages.length = .ok d ∧
        st'.messages = [st.messages.getD 0 .null, st.messages.getD 1 .null, d]
          ++ lastN 30 st.messages) ∧
    st'.irac = st.irac ∧ st'.actions = st.actions ∧
    (∀ elapsed2, compactMessages st' elapsed2 = .ok st') := by
  by_cases hl : st.messages.length ≤ 40
  · unfold compactMessages at h
    rw [if_pos hl] at h
    injection h with h
    subst h
    refine ⟨fun _ => rfl, fun hgt => absurd hl (by omega), rfl, rfl, ?_⟩
    intro e2
    unfold compactMessages
    rw [if_pos hl]
  · unfold compactMessages at h
    rw [if_neg hl] at h
    dsimp only at h
    cases hd : digestMessage st.irac st.actions st.iterationCount elapsed
        st.messages.length with
    | error e => rw [hd] at h; exact Except.noConfusion h
    | ok d =>
        rw [hd] at h
        injection h with h
        subst h
        refine ⟨fun hle => absurd hle hl, fun _ => ⟨d, rfl, rfl⟩, rfl, rfl, ?_⟩
        intro e2
        have hlen : ([st.messages.getD 0 .null, st.messages.getD 1 .null, d]
            ++ lastN 30 st.messages).length ≤ 40 := by
          simp [lastN_length]
        unfold compactMessages
        dsimp only
        rw [if_pos hlen]

/-- A conversation of 41 dummy messages. -/
def manyMessages : List JValue :=
  (List.range 41).map
    (fun i => .obj [("role", .str "user"), ("content", .str (toString i))])

/-- A 41-message state with one completed IRAC phase and one action. -/
def w41State : AgentState :=
  { initialAgentState "hello" with
    messages := manyMessages
    irac := [("issue",
      { phase := "issue"
        content := .obj [("issue_statement",
          .str "The issue is whether notice was served")]
        completed := true })]
    actions := [.str "identify_legal_issue"] }

/-- The state after one compaction of `w41State`. -/
def w41Compacted : AgentState :=
  match compactMessages w41State 0 with
  | .ok s => s
  | .error _ => w41State

set_option maxRecDepth 10000 in
/-- Witness for `compaction_retention_idempotent`: compacting the
41-message state succeeds and compacting its result again returns it
unchanged. -/
theorem compaction_retention_idempotent_witness :
    compactMessages w41State 0 = .ok w41Compacted ∧
    compactMessages w41Compacted 7 = .ok w41Compacted := by
  have h1 : compactMessages w41State 0 = .ok w41Compacted := by decide
  exact ⟨h1,
    (compaction_retention_idempotent w41State w41Compacted 0 h1).2.2.2.2 7⟩

/-! ## Agent construction and the worker path (C4)

`SuperLawyerAgent.__init__` (`lawyer_brain.py` 107-157) forwards
`user_id`, `firm_id` and `backend_url` as keyword arguments to
`LearningManager`, whose `__init__` (`learning.py` 142-166) declares only
`preferences_dir`; CPython rejects the call before the constructor body
runs.  The body of a successful `LearningManager.__init__` (directory
creation and cache loading) is file I/O outside this embedding and is
unreachable on this path. -/

/-- `type(e).__name__`. -/
def PyExc.pyTypeName : PyExc → String
  | .typeError _ => "TypeError"
  | .attributeError _ => "AttributeError"
  | .indexError _ => "IndexError"
  | .runtimeError _ => "RuntimeError"
  | .valueError _ => "ValueError"

/-- The parameters `LearningManager.__init__` declares besides `self`. -/
def learningManagerInitParams : List String := ["preferences_dir"]

/-- CPython keyword binding against `LearningManager.__init__`: the first
keyword not matching a declared parameter raises `TypeError`.  (The
message follows the bare `__init__()` form; nothing below depends on its
exact text.) -/
def learningManagerNew (kwargs : List String) : Except PyExc Unit :=
  match kwargs.find? (fun k => !(learningManagerInitParams.contains k)) with
  | some k => .error (.typeError
      ("__init__() got an unexpected keyword argument \x27" ++ k ++ "\x27"))
  | none => .ok ()

/-- The keywords `SuperLawyerAgent.__init__` passes to `LearningManager`
(`lawyer_brain.py` 123-128). -/
def superLawyerAgentLearningKwargs : List String :=
  ["preferences_dir", "user_id", "firm_id", "backend_url"]

/-- `SuperLawyerAgent.__init__`: plain attribute assignments, then the
`LearningManager` call; the later component constructions are never
reached when that call raises. -/
def superLawyerAgentInit : Except PyExc Unit :=
  match learningManagerNew superLawyerAgentLearningKwargs with
  | .error e => .error e
  | .ok () => .ok ()

inductive TaskStatus where
  | pending | running | completed | failed
  deriving Repr, DecidableEq

/-- The slice of a worker task that `_process_task` updates. -/
structure WTask where
  status : TaskStatus
  error : Option JValue
  deriving Repr, DecidableEq

/-- `BackgroundWorker._process_task` on the SuperLawyer path (`worker.py`
427-502): construct the agent, run it, set the task status from the
result; the enclosing `except Exception` turns any raise into a FAILED
task with `error = f"\x7btype(e).__name__\x7d: \x7bstr(e)\x7d"`. -/
def processTask (task : WTask) (runAgent : Unit → Except PyExc JValue) :
    WTask × JValue :=
  match superLawyerAgentInit with
  | .error e =>
      let msg := e.pyTypeName ++ ": " ++ e.message
      ({ task with
          status := .failed
          error := some (.str msg) },
       .obj [("success", .bool false), ("error", .str msg)])
  | .ok () =>
      match runAgent () with
      | .error e =>
          let msg := e.pyTypeName ++ ": " ++ e.message
          ({ task with
              status := .failed
              error := some (.str msg) },
           .obj [("success", .bool false), ("error", .str msg)])
      | .ok result =>
          if pyTruthy (jgetOf result "success" (.bool false)) then
            ({ task with
                status := .completed
                error := task.error }, result)
          else
            ({ task with
                status := .failed
                error := some (jgetOf result "error"
                  (.str "Task did not complete successfully")) }, result)

/-- C4.  For every task and every agent behavior, the SuperLawyer path
fails up front: constructing `SuperLawyerAgent` raises a `TypeError` at
the `LearningManager` call — `user_id` is not an accepted keyword — so
the worker never invokes the agent and its exception handler marks the
task FAILED with that error. -/
theorem super_lawyer_init_raises (task : WTask)
    (runAgent : Unit → Except PyExc JValue) :
    superLawyerAgentInit = .error (.typeError
      "__init__() got an unexpected keyword argument \x27user_id\x27") ∧
    (processTask task runAgent).1.status = .failed ∧
    (processTask task runAgent).1.error = some (.str
      "TypeError: __init__() got an unexpected keyword argument \x27user_id\x27") ∧
    (processTask task runAgent).2 =
      .obj [("success", .bool false), ("error", .str
        "TypeError: __init__() got an unexpected keyword argument \x27user_id\x27")] := by
  refine ⟨rfl, rfl, rfl, rfl⟩

/-- A concrete oracle: a rate limit with hint 2, then a 503, then a 404. -/
def azureOracleA : Nat → AttemptOutcome := fun i =>
  if i = 0 then .httpError 429 (some 2)
  else if i = 1 then .httpError 503 none
  else .httpError 404 none

/-- Witness for `azure_retry_policy`: after a 429 (sleep 2) and a 503
(sleep 2), the 404 is fatal immediately with three attempts consumed. -/
theorem azure_retry_policy_witness :
    (∀ i, i < 2 → retryableHttp (azureOracleA i)) ∧
    callAzureOpenAI azureOracleA =
      ⟨.error "Azure OpenAI API error 404", [2, 2], 3⟩ := by
  constructor
  · decide
  · rw [(azure_retry_policy azureOracleA).1 2 (by decide) (by decide) 404 none
      (by decide) (by decide)]
    decide

end AgentModel
